import Mathlib

/-!
# SpeedCrunch `variant/real.cpp`: the arbitrary-precision real of the variant layer

A shallow embedding of `src/variant/real.cpp`.

* C++ `int`, `char` and `signed char` values are `Int`.  The only arithmetic the
  file performs on them is `longrealPrec + 5`, `longrealPrec + 3`,
  `precision * k` for `k ≤ 2136` and a division by 643, all on values bounded
  by `DECPRECISION`, so no wrap-around is modelled.  The share count
  `refcount` is an `Int` as well: it counts the live handles of one object.
* The decimal kernel (`math/floatnum`, `math/floatconvert`) and the headers
  `variant/real.hxx`, `math/floatconfig.h` are not part of the source tree.
  Everything taken from them is a field of `Kernel`: the functions of
  `real.cpp` are embedded over an arbitrary kernel.  Kernel calls that can read
  or write the kernel's globals (error flag, precision) thread a kernel state
  `σ`; an out-parameter `floatnum dest` is returned as a result.
* `QString` and `QByteArray` are `String`.
-/

namespace SpeedCrunch

/-! ## Declarations used by `real.cpp` -/

/-- Status codes of the kernel (`Error`): `Success` and every other code. -/
inductive Error where
  | Success
  | failure (code : Nat)
  deriving DecidableEq, Repr

/-- The enumeration `LongReal::Sign`. -/
inductive Sign where
  | None
  | Plus
  | Minus
  | Compl2
  deriving DecidableEq, Repr

/-- The enumeration `LongReal::FmtMode`. -/
inductive FmtMode where
  | FixPoint
  | Scientific
  | Engineering
  | Complement2
  deriving DecidableEq, Repr

/-- The kind tag of a `Variant`: `vLongReal` or any other registered kind. -/
inductive VariantType where
  | vLongReal
  | vOther (tag : Nat)
  deriving DecidableEq, Repr

/-- The kernel's output tokens `t_otokens`, as `float_out` fills them. -/
structure OTokens where
  sign : Int
  intpart : String
  fracpart : String
  exp : Int
  deriving DecidableEq, Repr

/-- The kernel's input tokens `t_itokens`; `exp` is `none` for the null pointer. -/
structure ITokens where
  intpart : String
  fracpart : String
  exp : Option String
  expbase : Int
  expsign : Int
  sign : Int
  base : Int
  maxdigits : Int
  deriving DecidableEq, Repr

/-- The tokenized record `LongReal::BasicIO`. -/
structure BasicIO where
  baseSignificand : Int
  baseScale : Int
  signSignificand : Sign
  signScale : Sign
  intpart : String
  fracpart : String
  scale : String
  error : Error
  deriving DecidableEq, Repr

/-- The constants and functions `real.cpp` takes from the decimal kernel and from
the headers that are not in the source tree.  `F` is `floatstruct`, `σ` the
kernel's global state. -/
structure Kernel (F σ : Type) where
  DECPRECISION : Int
  UNORDERED : Int
  TONEAREST : Int
  EXACT : Int
  INTQUOT : Int
  NULLTERMINATED : Int
  IO_MODE_FIXPOINT : Int
  IO_MODE_ENG : Int
  IO_MODE_COMPLEMENT : Int
  IO_MODE_SCIENTIFIC : Int
  IO_SIGN_COMPLEMENT : Int
  IO_SIGN_MINUS : Int
  IO_SIGN_PLUS : Int
  IO_SIGN_NONE : Int
  IO_BASE_NAN : Int
  /-- The integer value of each enumerator of `LongReal::Sign`. -/
  signCode : Sign → Int
  float_create : σ → F × σ
  float_free : σ → F → σ
  float_isnan : F → Bool
  float_iszero : F → Bool
  /-- The call `float_move(dest, src)`: the new `dest`, the new `src`, the state. -/
  float_move : σ → F → F × F × σ
  /-- The call `float_copy(dest, src, digits)`. -/
  float_copy : σ → F → Int → Bool × F × σ
  float_neg : σ → F → Bool × F × σ
  /-- The call `float_setscientific(dest, str, len)`. -/
  float_setscientific : σ → String → Int → F × σ
  float_add : σ → F → F → Int → Bool × F × σ
  float_sub : σ → F → F → Int → Bool × F × σ
  float_mul : σ → F → F → Int → Bool × F × σ
  float_div : σ → F → F → Int → Bool × F × σ
  /-- The call `float_round(dest, src, digits, mode)`. -/
  float_round : σ → F → Int → Int → Bool × F × σ
  /-- The call `float_divmod(quotient, remainder, dividend, divisor, digits)`. -/
  float_divmod : σ → F → F → Int → Bool × F × F × σ
  /-- The call `float_setprecision(digits)`: the previous precision and the state. -/
  float_setprecision : σ → Int → Int × σ
  float_cmp : σ → F → F → Int × σ
  float_geterror : σ → Error × σ
  /-- The call `float_out(tokens, x, digits, base, scalebase, mode)`. -/
  float_out : σ → F → Int → Int → Int → Int → Error × OTokens × σ
  /-- The call `exp2str(buf, exp, base)`: the status and the string written. -/
  exp2str : Int → Int → Error × String
  float_in : σ → ITokens → Error × F × σ

/-! ## File-scope helpers -/

/-- The anonymous enumeration `less = 1, equal = 2, greater = 4`. -/
def less : Nat := 1

/-- See `less`. -/
def equal : Nat := 2

/-- See `less`. -/
def greater : Nat := 4

/-- The static `_cvtMode`. -/
def _cvtMode {F σ : Type} (K : Kernel F σ) (mode : FmtMode) : Int :=
  match mode with
  | FmtMode.FixPoint => K.IO_MODE_FIXPOINT
  | FmtMode.Engineering => K.IO_MODE_ENG
  | FmtMode.Complement2 => K.IO_MODE_COMPLEMENT
  | _ => K.IO_MODE_SCIENTIFIC

/-- The static `_cvtSign(signed char)`: kernel sign code to `LongReal::Sign`. -/
def _cvtSign {F σ : Type} (K : Kernel F σ) (sign : Int) : Sign :=
  if sign = K.IO_SIGN_COMPLEMENT then Sign.Compl2
  else if sign = K.IO_SIGN_MINUS then Sign.Minus
  else if sign = K.IO_SIGN_PLUS then Sign.Plus
  else Sign.None

/-- The static `_cvtSign(LongReal::Sign)`: `LongReal::Sign` to kernel sign code. -/
def _cvtSignCode {F σ : Type} (K : Kernel F σ) (sign : Sign) : Int :=
  match sign with
  | Sign.Compl2 => K.IO_SIGN_COMPLEMENT
  | Sign.Minus => K.IO_SIGN_MINUS
  | Sign.Plus => K.IO_SIGN_PLUS
  | _ => K.IO_SIGN_NONE

/-- The static `_mod(dest, dividend, modulo)`: the status, `dest` and the state. -/
def _mod {F σ : Type} (K : Kernel F σ) (s : σ) (dividend modulo : F) : Bool × F × σ :=
  let maxdivloops : Int := 250
  let sp := K.float_setprecision s maxdivloops
  let save := sp.1
  let c := K.float_create sp.2
  -- float_divmod(&dummy, dest, dividend, modulo, INTQUOT)
  let r := K.float_divmod c.2 dividend modulo K.INTQUOT
  let result := r.1
  let dummy := r.2.1
  let dest := r.2.2.1
  let s := K.float_free r.2.2.2 dummy
  let s := (K.float_setprecision s save).2
  (result, dest, s)

/-- The static `_idiv(dest, dividend, modulo)`: the status, `dest` and the state. -/
def _idiv {F σ : Type} (K : Kernel F σ) (s : σ) (dividend modulo : F) : Bool × F × σ :=
  let sp := K.float_setprecision s K.DECPRECISION
  let save := sp.1
  let c := K.float_create sp.2
  -- float_divmod(dest, &dummy, dividend, modulo, INTQUOT)
  let r := K.float_divmod c.2 dividend modulo K.INTQUOT
  let result := r.1
  let dest := r.2.1
  let dummy := r.2.2.1
  let s := K.float_free r.2.2.2 dummy
  let s := (K.float_setprecision s save).2
  (result, dest, s)

/-! ## `LongReal` -/

/-- The object `LongReal`: the kernel number `val` and the share count `refcount`. -/
structure LongReal (F : Type) where
  val : F
  refcount : Int
  deriving DecidableEq, Repr

/-- A `Variant` received as the other operand: its kind tag and the `cfloatnum` it
converts to. -/
structure Operand (F : Type) where
  type : VariantType
  num : F
  deriving DecidableEq, Repr

/-- A `Variant` returned by `LongReal`: the two sentinels, a boolean, the variant
built from a kernel number and a status, and the variant built from `this`. -/
inductive Variant (F : Type) where
  | NotImplemented
  | NoOperand
  | ofBool (b : Bool)
  | ofFloat (x : F) (e : Error)
  | ofData (d : LongReal F)
  deriving DecidableEq, Repr

/-- `LongReal::precision(newprec)` on the static `longrealPrec`: the returned value
and the new `longrealPrec`. -/
def LongReal.precision {F σ : Type} (K : Kernel F σ) (longrealPrec : Int) (newprec : Int) :
    Int × Int :=
  let result := longrealPrec
  let newprec := if newprec = 0 ∨ newprec > K.DECPRECISION then K.DECPRECISION else newprec
  let longrealPrec := if newprec > 0 then newprec else longrealPrec
  (result, longrealPrec)

/-- `LongReal::evalPrec()`. -/
def LongReal.evalPrec (longrealPrec : Int) : Int :=
  longrealPrec + 5

/-- `LongReal::workPrec()`. -/
def LongReal.workPrec (longrealPrec : Int) : Int :=
  longrealPrec + 3

/-- `LongReal::type()`: the kind tag `vLongReal`, under which `initClass` registers
the class. -/
def LongReal.type {F : Type} (_self : LongReal F) : VariantType :=
  VariantType.vLongReal

/-- `LongReal::move(x)`: the returned flag, the object, `x` after the call, the state. -/
def LongReal.move {F σ : Type} (K : Kernel F σ) (self : LongReal F) (x : F) (s : σ) :
    Bool × LongReal F × F × σ :=
  if self.refcount ≠ 1 then (false, self, x, s)
  else
    let r := K.float_move s x
    (true, { self with val := r.1 }, r.2.1, r.2.2)

/-- `LongReal::assign(str)`: the returned flag, the object and the state. -/
def LongReal.assign {F σ : Type} (K : Kernel F σ) (self : LongReal F) (str : String) (s : σ) :
    Bool × LongReal F × σ :=
  if self.refcount ≠ 1 then (false, self, s)
  else
    let r := K.float_setscientific s str K.NULLTERMINATED
    (!K.float_isnan r.1, { self with val := r.1 }, r.2)

/-- `LongReal::call2(other, fct, swap)`, with `lp` the static `longrealPrec`. -/
def LongReal.call2 {F σ : Type} (K : Kernel F σ) (lp : Int) (self : LongReal F)
    (other : Operand F) (fct : σ → F → F → Int → Bool × F × σ) (swap : Bool) (s : σ) :
    Variant F × σ :=
  if self.type ≠ other.type then (Variant.NotImplemented, s)
  else
    let c := K.float_create s
    let r := if swap then fct c.2 other.num self.val (LongReal.evalPrec lp)
             else fct c.2 self.val other.num (LongReal.evalPrec lp)
    -- r.1 && float_round(&result, &result, workPrec(), TONEAREST)
    let q := if r.1 then
               let rr := K.float_round r.2.2 r.2.1 (LongReal.workPrec lp) K.TONEAREST
               (rr.2.1, rr.2.2)
             else (r.2.1, r.2.2)
    let e := K.float_geterror q.2
    (Variant.ofFloat q.1 e.1, e.2)

/-- `LongReal::call2ND(other, fct, swap)`. -/
def LongReal.call2ND {F σ : Type} (K : Kernel F σ) (self : LongReal F)
    (other : Operand F) (fct : σ → F → F → Bool × F × σ) (swap : Bool) (s : σ) :
    Variant F × σ :=
  if self.type ≠ other.type then (Variant.NotImplemented, s)
  else
    let c := K.float_create s
    let r := if swap then fct c.2 other.num self.val else fct c.2 self.val other.num
    let e := K.float_geterror r.2.2
    (Variant.ofFloat r.2.1 e.1, e.2)

/-- `LongReal::callCmp(other, mask)`. -/
def LongReal.callCmp {F σ : Type} (K : Kernel F σ) (self : LongReal F) (other : Operand F)
    (mask : Nat) (s : σ) : Variant F × σ :=
  if self.type ≠ other.type then (Variant.NotImplemented, s)
  else
    let c := K.float_cmp s self.val other.num
    let cmp := c.1
    if cmp = K.UNORDERED then (Variant.NoOperand, c.2)
    else if cmp < 0 ∧ (mask &&& less) ≠ 0 then (Variant.ofBool true, c.2)
    else if cmp > 0 ∧ (mask &&& greater) ≠ 0 then (Variant.ofBool true, c.2)
    else if cmp = 0 ∧ (mask &&& equal) ≠ 0 then (Variant.ofBool true, c.2)
    else (Variant.ofBool false, c.2)

/-- `LongReal::operator+() const` (unary plus). -/
def LongReal.plus {F σ : Type} (K : Kernel F σ) (self : LongReal F) : Variant F :=
  if K.float_isnan self.val then Variant.NoOperand
  else Variant.ofData self

/-- `LongReal::operator-() const` (unary minus). -/
def LongReal.neg {F σ : Type} (K : Kernel F σ) (self : LongReal F) (s : σ) : Variant F × σ :=
  let c := K.float_create s
  let cp := K.float_copy c.2 self.val K.EXACT
  let n := K.float_neg cp.2.2 cp.2.1
  let e := K.float_geterror n.2.2
  (Variant.ofFloat n.2.1 e.1, e.2)

/-- `LongReal::operator+(other)`. -/
def LongReal.add {F σ : Type} (K : Kernel F σ) (lp : Int) (self : LongReal F)
    (other : Operand F) (s : σ) : Variant F × σ :=
  LongReal.call2 K lp self other K.float_add false s

/-- `LongReal::operator-(other)`. -/
def LongReal.sub {F σ : Type} (K : Kernel F σ) (lp : Int) (self : LongReal F)
    (other : Operand F) (s : σ) : Variant F × σ :=
  LongReal.call2 K lp self other K.float_sub false s

/-- `LongReal::operator*(other)`. -/
def LongReal.mul {F σ : Type} (K : Kernel F σ) (lp : Int) (self : LongReal F)
    (other : Operand F) (s : σ) : Variant F × σ :=
  LongReal.call2 K lp self other K.float_add false s

/-- `LongReal::operator/(other)`. -/
def LongReal.div {F σ : Type} (K : Kernel F σ) (lp : Int) (self : LongReal F)
    (other : Operand F) (s : σ) : Variant F × σ :=
  LongReal.call2 K lp self other K.float_add false s

/-- `LongReal::operator%(other)`. -/
def LongReal.mod {F σ : Type} (K : Kernel F σ) (self : LongReal F)
    (other : Operand F) (s : σ) : Variant F × σ :=
  LongReal.call2ND K self other (_mod K) false s

/-- `LongReal::idiv(other)`. -/
def LongReal.idiv {F σ : Type} (K : Kernel F σ) (self : LongReal F)
    (other : Operand F) (s : σ) : Variant F × σ :=
  LongReal.call2ND K self other (_idiv K) false s

/-- `LongReal::operator==(other)`. -/
def LongReal.eq {F σ : Type} (K : Kernel F σ) (self : LongReal F)
    (other : Operand F) (s : σ) : Variant F × σ :=
  LongReal.callCmp K self other equal s

/-- `LongReal::operator!=(other)`. -/
def LongReal.ne {F σ : Type} (K : Kernel F σ) (self : LongReal F)
    (other : Operand F) (s : σ) : Variant F × σ :=
  LongReal.callCmp K self other (less ||| greater) s

/-- `LongReal::operator>(other)`. -/
def LongReal.gt {F σ : Type} (K : Kernel F σ) (self : LongReal F)
    (other : Operand F) (s : σ) : Variant F × σ :=
  LongReal.callCmp K self other greater s

/-- `LongReal::operator>=(other)`. -/
def LongReal.ge {F σ : Type} (K : Kernel F σ) (self : LongReal F)
    (other : Operand F) (s : σ) : Variant F × σ :=
  LongReal.callCmp K self other (greater ||| equal) s

/-- `LongReal::operator<(other)`. -/
def LongReal.lt {F σ : Type} (K : Kernel F σ) (self : LongReal F)
    (other : Operand F) (s : σ) : Variant F × σ :=
  LongReal.callCmp K self other less s

/-- `LongReal::operator<=(other)`. -/
def LongReal.le {F σ : Type} (K : Kernel F σ) (self : LongReal F)
    (other : Operand F) (s : σ) : Variant F × σ :=
  LongReal.callCmp K self other (less ||| equal) s

/-- `LongReal::swapSub(other)`. -/
def LongReal.swapSub {F σ : Type} (K : Kernel F σ) (lp : Int) (self : LongReal F)
    (other : Operand F) (s : σ) : Variant F × σ :=
  LongReal.call2 K lp self other K.float_sub true s

/-- `LongReal::swapDiv(other)`. -/
def LongReal.swapDiv {F σ : Type} (K : Kernel F σ) (lp : Int) (self : LongReal F)
    (other : Operand F) (s : σ) : Variant F × σ :=
  LongReal.call2 K lp self other K.float_div true s

/-- `LongReal::swapMod(other)`. -/
def LongReal.swapMod {F σ : Type} (K : Kernel F σ) (self : LongReal F)
    (other : Operand F) (s : σ) : Variant F × σ :=
  LongReal.call2ND K self other (_mod K) true s

/-- `LongReal::swapIdiv(other)`. -/
def LongReal.swapIdiv {F σ : Type} (K : Kernel F σ) (self : LongReal F)
    (other : Operand F) (s : σ) : Variant F × σ :=
  LongReal.call2ND K self other (_idiv K) true s

/-- `LongReal::isNaN()`. -/
def LongReal.isNaN {F σ : Type} (K : Kernel F σ) (self : LongReal F) : Bool :=
  K.float_isnan self.val

/-- `LongReal::isZero()`. -/
def LongReal.isZero {F σ : Type} (K : Kernel F σ) (self : LongReal F) : Bool :=
  K.float_iszero self.val

/-- `LongReal::convert(prec, mode, base, scalebase)`: value to tokenized record.
The fields of `result` that C++ leaves uninitialised when the status is not
`Success` (both bases, the significand sign) are 0 and `Sign.None` here. -/
def LongReal.convert {F σ : Type} (K : Kernel F σ) (lp : Int) (self : LongReal F)
    (prec : Int) (mode : FmtMode) (base scalebase : Int) (s : σ) : BasicIO × σ :=
  let c := K.float_create s
  let cp := K.float_copy c.2 self.val (LongReal.evalPrec lp)
  let workcopy := cp.2.1
  let scale0 : String := ""
  let signScale0 := Sign.None
  let o := K.float_out cp.2.2 workcopy prec base scalebase (_cvtMode K mode)
  let tokens := o.2.1
  let error0 := o.1
  -- the switch on `mode`, entered when `result.error == Success`
  let sw : Sign × String × Error :=
    if error0 = Error.Success then
      match mode with
      | FmtMode.Scientific | FmtMode.Engineering =>
        let signScale := if tokens.exp > 0 then Sign.Plus
                         else if tokens.exp < 0 then Sign.Minus
                         else signScale0
        let x := K.exp2str tokens.exp scalebase
        (signScale, x.2, x.1)
      | _ => (signScale0, scale0, error0)
    else (signScale0, scale0, error0)
  let signScale := sw.1
  let scale := sw.2.1
  let error := sw.2.2
  if error = Error.Success then
    ({ baseSignificand := base
       baseScale := scalebase
       signSignificand := _cvtSign K tokens.sign
       signScale := signScale
       intpart := tokens.intpart
       fracpart := tokens.fracpart
       scale := scale
       error := error }, o.2.2)
  else
    ({ baseSignificand := 0
       baseScale := 0
       signSignificand := Sign.None
       signScale := signScale
       intpart := ""
       fracpart := ""
       scale := ""
       error := error }, o.2.2)

/-- The kernel input tokens that `LongReal::convert(const BasicIO&)` builds from
`io` before it calls `float_in`. -/
def LongReal.convertTokens {F σ : Type} (K : Kernel F σ) (lp : Int) ( io : BasicIO) : ITokens :=
  let intpart := io.intpart
  let _fracpart := io.fracpart
  let tokens : ITokens :=
    { intpart := intpart
      fracpart := intpart
      exp := none
      expbase := K.IO_BASE_NAN
      expsign := K.IO_SIGN_NONE
      sign := _cvtSignCode K io.signSignificand
      base := io.baseSignificand
      maxdigits := LongReal.evalPrec lp }
  if io.scale ≠ "" then
    { tokens with exp := some io.scale, expbase := io.baseScale,
                  expsign := K.signCode io.signScale }
  else tokens

/-- `LongReal::convert(const BasicIO&)`: tokenized record to value. -/
def LongReal.convertRecord {F σ : Type} (K : Kernel F σ) (lp : Int) ( io : BasicIO) (s : σ) :
    Variant F × σ :=
  let tokens := LongReal.convertTokens K lp io
  let c := K.float_create s
  let r := K.float_in c.2 tokens
  (Variant.ofFloat r.2.1 r.1, r.2.2)

/-! ## `RealFormat` -/

/-- The members of `RealFormat` that `real.cpp` uses. -/
structure RealFormat where
  mode : FmtMode
  base : Int
  scalebase : Int
  precision : Int
  digits : Int
  deriving DecidableEq, Repr

/-- A `VariantData` passed to `RealFormat::format`: a `LongReal` or an object of
another class. -/
inductive VariantData (F : Type) where
  | longReal (v : LongReal F)
  | other (tag : Nat)

/-- The local `maxdgt` of `RealFormat::setMode` after `maxdgt /= 643`.  The
`switch (b)` has no `break`: control enters at the matching label and runs every
assignment below it. -/
def RealFormat.maxdgt (precision : Int) (b : Int) : Int :=
  let entry : Nat := if b = 2 then 0 else if b = 8 then 1 else if b = 16 then 2 else 3
  let maxdgt : Int := 0
  let maxdgt := if entry ≤ 0 then precision * 2136 else maxdgt
  let maxdgt := if entry ≤ 1 then precision * 712 else maxdgt
  let maxdgt := if entry ≤ 2 then precision * 534 else maxdgt
  let maxdgt := if entry ≤ 3 then precision * 643 else maxdgt
  Int.tdiv maxdgt 643

/-- `RealFormat::setMode(m, dgt, b, sb, prec)`. -/
def RealFormat.setMode {F σ : Type} (K : Kernel F σ) (_self : RealFormat) (m : FmtMode)
    (dgt : Int) (b sb : Int) (prec : Int) : RealFormat :=
  let precision := if prec ≤ 0 ∨ prec > K.DECPRECISION then K.DECPRECISION else prec
  let maxdgt := RealFormat.maxdgt precision b
  let digits := if dgt ≤ 0 ∨ dgt > maxdgt then maxdgt else dgt
  { mode := m, base := b, scalebase := sb, precision := precision, digits := digits }

/-- `RealFormat::getSignificandPrefix()`. -/
def RealFormat.getSignificandPrefix (_self : RealFormat) : String := ""

/-- `RealFormat::getSignificandSuffix()`. -/
def RealFormat.getSignificandSuffix (_self : RealFormat) : String := ""

/-- `RealFormat::getScalePrefix()`. -/
def RealFormat.getScalePrefix (_self : RealFormat) : String := ""

/-- `RealFormat::getScaleSuffix()`. -/
def RealFormat.getScaleSuffix (_self : RealFormat) : String := ""

/-- `RealFormat::formatNaN()`. -/
def RealFormat.formatNaN (_self : RealFormat) : String := "NaN"

/-- `RealFormat::formatZero()`. -/
def RealFormat.formatZero (_self : RealFormat) : String := "0"

/-- `RealFormat::formatInt(seq, sign)`. -/
def RealFormat.formatInt (_self : RealFormat) (_seq : String) (_sign : Sign) : String := ""

/-- `RealFormat::formatFrac(seq)`. -/
def RealFormat.formatFrac (_self : RealFormat) (_seq : String) : String := ""

/-- `RealFormat::formatScale(seq, sign)`. -/
def RealFormat.formatScale (_self : RealFormat) (_seq : String) (_sign : Sign) : String := ""

/-- `RealFormat::format(val)`, with `lp` the static `longrealPrec`. -/
def RealFormat.format {F σ : Type} (K : Kernel F σ) (lp : Int) (self : RealFormat)
    (val : VariantData F) (s : σ) : String × σ :=
  match val with
  | VariantData.other _ => ("", s)
  | VariantData.longReal vr =>
    if vr.isNaN K then (self.formatNaN, s)
    else if vr.isZero K then (self.formatZero, s)
    else
      let r := vr.convert K lp self.precision self.mode self.base self.scalebase s
      if r.1.error ≠ Error.Success then ("", r.2)
      else (self.getSignificandPrefix, r.2)

/-! ## A reference kernel

A small exact decimal kernel, used to run the embedding on concrete inputs.  A
number is `num / 10 ^ scale` or NaN (`none`); the state holds the kernel's
precision and its error flag.  Token output and input cover base 10 in
fixed-point and scientific mode. -/

/-- The decimal number `num / 10 ^ scale`. -/
structure Dec where
  num : Int
  scale : Nat
  deriving DecidableEq, Repr

/-- The globals of the reference kernel. -/
structure RefState where
  precision : Int
  error : Error
  deriving DecidableEq, Repr

namespace Ref

/-- Status reported for a NaN operand. -/
def NoOperand : Error := Error.failure 1

/-- Status reported for a zero divisor. -/
def ZeroDivide : Error := Error.failure 2

/-- Status reported for a malformed literal or token. -/
def BadLiteral : Error := Error.failure 3

/-- Status reported for a base or mode the reference kernel does not cover. -/
def Unsupported : Error := Error.failure 4

/-- Sets the error flag. -/
def fail (s : RefState) (e : Error) : RefState := { s with error := e }

/-- Lifts an exact binary operation on `Dec` to a kernel primitive. -/
def lift2 (f : Dec → Dec → Dec) (s : RefState) (a b : Option Dec) (_digits : Int) :
    Bool × Option Dec × RefState :=
  match a, b with
  | some x, some y => (true, some (f x y), s)
  | _, _ => (false, none, fail s NoOperand)

/-- Exact sum. -/
def add (a b : Dec) : Dec :=
  { num := a.num * 10 ^ b.scale + b.num * 10 ^ a.scale, scale := a.scale + b.scale }

/-- Exact difference. -/
def sub (a b : Dec) : Dec :=
  { num := a.num * 10 ^ b.scale - b.num * 10 ^ a.scale, scale := a.scale + b.scale }

/-- Exact product. -/
def mul (a b : Dec) : Dec :=
  { num := a.num * b.num, scale := a.scale + b.scale }

/-- Quotient with `digits` further fractional digits, truncated. -/
def float_div (s : RefState) (a b : Option Dec) (digits : Int) : Bool × Option Dec × RefState :=
  match a, b with
  | some x, some y =>
    if y.num = 0 then (false, none, fail s ZeroDivide)
    else (true, some { num := Int.tdiv (x.num * 10 ^ (y.scale + digits.toNat)) y.num,
                       scale := x.scale + digits.toNat }, s)
  | _, _ => (false, none, fail s NoOperand)

/-- Rounds to at most `digits` fractional digits, ties away from zero. -/
def float_round (s : RefState) (a : Option Dec) (digits : Int) (_mode : Int) :
    Bool × Option Dec × RefState :=
  match a with
  | some x =>
    if x.scale ≤ digits.toNat then (true, some x, s)
    else
      let k := x.scale - digits.toNat
      let m : Int := ((x.num.natAbs + 5 * 10 ^ (k - 1)) / 10 ^ k : Nat)
      (true, some { num := if x.num < 0 then -m else m, scale := digits.toNat }, s)
  | none => (false, none, fail s NoOperand)

/-- Truncated integer quotient and the matching remainder. -/
def float_divmod (s : RefState) (a b : Option Dec) (_digits : Int) :
    Bool × Option Dec × Option Dec × RefState :=
  match a, b with
  | some x, some y =>
    if y.num = 0 then (false, none, none, fail s ZeroDivide)
    else
      let n := x.num * 10 ^ y.scale
      let d := y.num * 10 ^ x.scale
      let q := Int.tdiv n d
      (true, some { num := q, scale := 0 }, some { num := n - q * d, scale := x.scale + y.scale }, s)
  | _, _ => (false, none, none, fail s NoOperand)

/-- Three-way comparison, `-2` when an operand is NaN. -/
def float_cmp (s : RefState) (a b : Option Dec) : Int × RefState :=
  match a, b with
  | some x, some y =>
    let n := x.num * 10 ^ y.scale
    let d := y.num * 10 ^ x.scale
    (if n < d then -1 else if n = d then 0 else 1, s)
  | _, _ => (-2, fail s NoOperand)

/-- The decimal digits of `n`. -/
def digits (n : Nat) : List Char := Nat.toDigits 10 n

/-- Left-pads with `'0'` to length `k`. -/
def pad (k : Nat) (l : List Char) : List Char := List.replicate (k - l.length) '0' ++ l

/-- The number a decimal digit sequence denotes. -/
def value (l : List Char) : Nat := l.foldl (fun acc c => acc * 10 + (c.toNat - 48)) 0

/-- Whether every character is a decimal digit. -/
def isDigits (l : List Char) : Bool := l.all Char.isDigit

/-- Token output: base 10, fixed-point (mode 0) or scientific (mode 1). -/
def float_out (s : RefState) (a : Option Dec) (_digits : Int) (base _scalebase mode : Int) :
    Error × OTokens × RefState :=
  let junk : OTokens := { sign := 0, intpart := "", fracpart := "", exp := 0 }
  match a with
  | none => (NoOperand, junk, s)
  | some x =>
    if base ≠ 10 then (Unsupported, junk, s)
    else
      let m := x.num.natAbs
      let sign : Int := if x.num < 0 then -1 else 0
      if mode = 0 then
        (Error.Success,
         { sign := sign
           intpart := String.mk (digits (m / 10 ^ x.scale))
           fracpart := if x.scale = 0 then "" else String.mk (pad x.scale (digits (m % 10 ^ x.scale)))
           exp := 0 }, s)
      else if mode = 1 then
        let ds := digits m
        (Error.Success,
         { sign := sign
           intpart := String.mk (ds.take 1)
           fracpart := String.mk (ds.drop 1)
           exp := (ds.length : Int) - 1 - (x.scale : Int) }, s)
      else (Unsupported, junk, s)

/-- Exponent to digit string, base 10 only. -/
def exp2str (e : Int) (base : Int) : Error × String :=
  if base = 10 then (Error.Success, String.mk (digits e.natAbs)) else (Unsupported, "")

/-- Token input: base 10, the inverse of `float_out`. -/
def float_in (s : RefState) (t : ITokens) : Error × Option Dec × RefState :=
  if t.base ≠ 10 then (Unsupported, none, s)
  else if ¬ (isDigits t.intpart.data ∧ isDigits t.fracpart.data) then (BadLiteral, none, s)
  else
    let n : Int := value (t.intpart.data ++ t.fracpart.data)
    let n := if t.sign = -1 then -n else n
    let k := t.fracpart.data.length
    match t.exp with
    | none => (Error.Success, some { num := n, scale := k }, s)
    | some e =>
      if t.expbase ≠ 10 ∨ ¬ isDigits e.data then (BadLiteral, none, s)
      else if t.expsign = -1 then
        (Error.Success, some { num := n, scale := k + value e.data }, s)
      else
        (Error.Success, some { num := n * 10 ^ value e.data, scale := k }, s)

/-- Literal input: an optional `-` and decimal digits. -/
def float_setscientific (s : RefState) (str : String) (_len : Int) : Option Dec × RefState :=
  match str.data with
  | [] => (none, fail s BadLiteral)
  | '-' :: ds =>
    if ds ≠ [] ∧ isDigits ds then (some { num := -(value ds : Int), scale := 0 }, s)
    else (none, fail s BadLiteral)
  | ds =>
    if isDigits ds then (some { num := (value ds : Int), scale := 0 }, s)
    else (none, fail s BadLiteral)

end Ref

/-- The reference kernel. -/
def refKernel : Kernel (Option Dec) RefState where
  DECPRECISION := 78
  UNORDERED := -2
  TONEAREST := 0
  EXACT := -101
  INTQUOT := -102
  NULLTERMINATED := -20
  IO_MODE_FIXPOINT := 0
  IO_MODE_SCIENTIFIC := 1
  IO_MODE_ENG := 2
  IO_MODE_COMPLEMENT := 3
  IO_SIGN_COMPLEMENT := -2
  IO_SIGN_MINUS := -1
  IO_SIGN_NONE := 0
  IO_SIGN_PLUS := 1
  IO_BASE_NAN := 1
  signCode := fun sg =>
    match sg with
    | Sign.Compl2 => -2
    | Sign.Minus => -1
    | Sign.Plus => 1
    | Sign.None => 0
  float_create := fun s => (none, s)
  float_free := fun s _ => s
  float_isnan := fun a => a.isNone
  float_iszero := fun a =>
    match a with
    | some x => decide (x.num = 0)
    | none => false
  float_move := fun s x => (x, none, s)
  float_copy := fun s x _ => (x.isSome, x, s)
  float_neg := fun s a =>
    match a with
    | some x => (true, some { x with num := -x.num }, s)
    | none => (false, none, Ref.fail s Ref.NoOperand)
  float_setscientific := Ref.float_setscientific
  float_add := Ref.lift2 Ref.add
  float_sub := Ref.lift2 Ref.sub
  float_mul := Ref.lift2 Ref.mul
  float_div := Ref.float_div
  float_round := Ref.float_round
  float_divmod := Ref.float_divmod
  float_setprecision := fun s n => (s.precision, { s with precision := n })
  float_cmp := Ref.float_cmp
  float_geterror := fun s => (s.error, { s with error := Error.Success })
  float_out := Ref.float_out
  exp2str := Ref.exp2str
  float_in := Ref.float_in

/-- The start state of the reference kernel. -/
def refState : RefState := { precision := 78, error := Error.Success }

/-- Modelled from the spec: `float_cmp` belongs to the decimal kernel, which is
not in the source tree.  The comparison "computes a trichotomous comparison
(less / equal / greater) or an unordered result when either operand is NaN". -/
def Kernel.CmpUnorderedOnNaN {F σ : Type} (K : Kernel F σ) : Prop :=
  ∀ (s : σ) (x y : F), K.float_isnan x = true ∨ K.float_isnan y = true →
    (K.float_cmp s x y).1 = K.UNORDERED

/-! ## Share count, initialisation and call sequences -/

/-- The heap of `LongReal` objects: an address holds a live object, or `none` once
the object is deleted.  A handle is an address. -/
abbrev Heap (F : Type) := Nat → Option (LongReal F)

/-- Writes `o` at address `p`. -/
def Heap.set {F : Type} (h : Heap F) (p : Nat) (o : Option (LongReal F)) : Heap F :=
  fun q => if q = p then o else h q

/-- `LongReal::release()` on the object at `this`; `delete this` runs
`~LongReal()`, which calls `float_free(&val)`.  The result is `none` when `this`
is not a live object. -/
def LongReal.release {F σ : Type} (K : Kernel F σ) (h : Heap F) (this : Nat) (s : σ) :
    Option (Heap F × σ) :=
  match h this with
  | none => none
  | some o =>
    let refcount := o.refcount - 1
    if refcount ≤ 0 then some (h.set this none, K.float_free s o.val)
    else some (h.set this (some { o with refcount := refcount }), s)

/-- `LongReal::clone()` on the object at `this`: the returned handle and the heap.
The result is `none` when `this` is not a live object. -/
def LongReal.clone {F : Type} (h : Heap F) (this : Nat) : Option (Nat × Heap F) :=
  match h this with
  | none => none
  | some o => some (this, h.set this (some { o with refcount := o.refcount + 1 }))

/-- `LongReal::initClass()` on the statics `longrealPrec` and `NaNVal`, without the
registration of the constructor; `precDefault` is the enumerator of
`variant/real.hxx` that the call passes. -/
def LongReal.initClass {F σ : Type} (K : Kernel F σ) (precDefault : Int) (longrealPrec : Int)
    (s : σ) : Int × F × σ :=
  let longrealPrec := (LongReal.precision K longrealPrec precDefault).2
  let c := K.float_create s
  (longrealPrec, c.1, c.2)

/-- The static `longrealPrec` after the calls `precision(n)` for the `n` of `ns`,
in order. -/
def LongReal.precisionCalls {F σ : Type} (K : Kernel F σ) (longrealPrec : Int)
    (ns : List Int) : Int :=
  ns.foldl (fun lp n => (LongReal.precision K lp n).2) longrealPrec

/-- The operand a `LongReal` is when it is passed as `other`. -/
def LongReal.asOperand {F : Type} (self : LongReal F) : Operand F :=
  { type := self.type, num := self.val }

/-! ## `RealFormat` with replaceable hooks -/

/-- Modelled from the spec: the class declaration of `RealFormat`
(`variant/real.hxx`) is not in the source tree.  The final text is composed "via
pluggable prefix/suffix hooks for significand and scale"; the hooks are the
member functions of `RealFormat` that a derived format can replace. -/
structure RealFormat.Hooks where
  getSignificandPrefix : RealFormat → String
  getSignificandSuffix : RealFormat → String
  getScalePrefix : RealFormat → String
  getScaleSuffix : RealFormat → String
  formatNaN : RealFormat → String
  formatZero : RealFormat → String
  formatInt : RealFormat → String → Sign → String
  formatFrac : RealFormat → String → String
  formatScale : RealFormat → String → Sign → String

/-- The hooks as `real.cpp` defines them for `RealFormat` itself. -/
def RealFormat.ownHooks : RealFormat.Hooks where
  getSignificandPrefix := RealFormat.getSignificandPrefix
  getSignificandSuffix := RealFormat.getSignificandSuffix
  getScalePrefix := RealFormat.getScalePrefix
  getScaleSuffix := RealFormat.getScaleSuffix
  formatNaN := RealFormat.formatNaN
  formatZero := RealFormat.formatZero
  formatInt := RealFormat.formatInt
  formatFrac := RealFormat.formatFrac
  formatScale := RealFormat.formatScale

/-- `RealFormat::format(val)` with the hooks dispatched through `hooks`. -/
def RealFormat.formatWith {F σ : Type} (K : Kernel F σ) (lp : Int) (hooks : RealFormat.Hooks)
    (self : RealFormat) (val : VariantData F) (s : σ) : String × σ :=
  match val with
  | VariantData.other _ => ("", s)
  | VariantData.longReal vr =>
    if vr.isNaN K then (hooks.formatNaN self, s)
    else if vr.isZero K then (hooks.formatZero self, s)
    else
      let r := vr.convert K lp self.precision self.mode self.base self.scalebase s
      if r.1.error ≠ Error.Success then ("", r.2)
      else (hooks.getSignificandPrefix self, r.2)

/-- The full composition as the spec words it: "prefix + digits + suffix for both
significand and scale", from the tokenized record of the value. -/
def RealFormat.fullComposition (hooks : RealFormat.Hooks) (self : RealFormat) ( io : BasicIO) :
    String :=
  hooks.getSignificandPrefix self
    ++ hooks.formatInt self io.intpart io.signSignificand
    ++ hooks.formatFrac self io.fracpart
    ++ hooks.getSignificandSuffix self
    ++ hooks.getScalePrefix self
    ++ hooks.formatScale self io.scale io.signScale
    ++ hooks.getScaleSuffix self

/-- A derived format: the integer digits as they are, the fractional digits after
a point, the scale after an `e`, no prefixes and suffixes. -/
def plainHooks : RealFormat.Hooks where
  getSignificandPrefix := fun _ => ""
  getSignificandSuffix := fun _ => ""
  getScalePrefix := fun _ => ""
  getScaleSuffix := fun _ => ""
  formatNaN := RealFormat.formatNaN
  formatZero := RealFormat.formatZero
  formatInt := fun _ seq sign => if sign = Sign.Minus then "-" ++ seq else seq
  formatFrac := fun _ seq => if seq = "" then "" else "." ++ seq
  formatScale := fun _ seq sign =>
    if seq = "" then "" else if sign = Sign.Minus then "e-" ++ seq else "e" ++ seq

/-- A heap with one object: the value 7 at address 0, held by one handle. -/
def refHeap : Heap (Option Dec) :=
  fun a => if a = 0 then some (LongReal.mk (some (Dec.mk 7 0)) 1) else none

/-! ## Kernel contracts -/

/-- Modelled from the spec: `float_setprecision` and the other primitives belong
to the decimal kernel, which is not in the source tree.  The kernel offers
"set/get global precision": `float_setprecision` returns the precision in force
and puts the new one in force, a later setting replaces an earlier one, and
creating, freeing and dividing leave the precision alone.  `prec` reads the
precision in force from the kernel state. -/
structure Kernel.PrecisionContract {F σ : Type} (K : Kernel F σ) (prec : σ → Int) : Prop where
  returns_prior : ∀ (s : σ) (n : Int), (K.float_setprecision s n).1 = prec s
  stores : ∀ (s : σ) (n : Int), prec (K.float_setprecision s n).2 = n
  last_wins : ∀ (s : σ) (n m : Int),
    (K.float_setprecision (K.float_setprecision s n).2 m).2 = (K.float_setprecision s m).2
  create_keeps : ∀ (s : σ), prec (K.float_create s).2 = prec s
  divmod_keeps : ∀ (s : σ) (a b : F) (d : Int), prec (K.float_divmod s a b d).2.2.2 = prec s
  free_keeps : ∀ (s : σ) (x : F), prec (K.float_free s x) = prec s

/-! ## Theorems -/

/-- The reference kernel reports UNORDERED as soon as one operand is NaN. -/
theorem refKernel_cmpUnorderedOnNaN : refKernel.CmpUnorderedOnNaN := by
  intro s x y h
  cases x <;> cases y <;> simp_all [refKernel, Ref.float_cmp]

/-- C1: with a positive `DECPRECISION`, `precision(p)` for `1 ≤ p ≤ DECPRECISION`
stores `p`, so that `evalPrec() = p + 5` and `workPrec() = p + 3`; `precision(0)`
and `precision(q)` for `q > DECPRECISION` store `DECPRECISION`. -/
theorem precision_stores_requested {F σ : Type} (K : Kernel F σ) (hD : 0 < K.DECPRECISION)
    (old : Int) :
    (∀ p : Int, 1 ≤ p → p ≤ K.DECPRECISION →
      (LongReal.precision K old p).2 = p ∧
      LongReal.evalPrec (LongReal.precision K old p).2 = p + 5 ∧
      LongReal.workPrec (LongReal.precision K old p).2 = p + 3) ∧
    (LongReal.precision K old 0).2 = K.DECPRECISION ∧
    (∀ q : Int, K.DECPRECISION < q → (LongReal.precision K old q).2 = K.DECPRECISION) := by
  refine ⟨?_, ?_, ?_⟩
  · intro p h1 h2
    have hp : ¬ (p = 0 ∨ p > K.DECPRECISION) := by omega
    have hpos : p > 0 := by omega
    simp [LongReal.precision, LongReal.evalPrec, LongReal.workPrec, hp, hpos]
  · simp [LongReal.precision, hD]
  · intro q hq
    have hq2 : q = 0 ∨ q > K.DECPRECISION := Or.inr hq
    simp [LongReal.precision, hq2, hD]

/-- Witness of C1 on the reference kernel (`DECPRECISION = 78`), from the
uninitialised setting 0: `precision(10)` stores 10, `precision(0)` and
`precision(100)` store 78. -/
theorem precision_stores_requested_witness :
    (0 : Int) < refKernel.DECPRECISION ∧
    (LongReal.precision refKernel 0 10).2 = 10 ∧
    LongReal.evalPrec (LongReal.precision refKernel 0 10).2 = 15 ∧
    LongReal.workPrec (LongReal.precision refKernel 0 10).2 = 13 ∧
    (LongReal.precision refKernel 0 0).2 = 78 ∧
    (LongReal.precision refKernel 0 100).2 = 78 :=
  have h := precision_stores_requested refKernel (by decide) 0
  have h10 := h.1 10 (by decide) (by decide)
  ⟨by decide, h10.1, h10.2.1, h10.2.2, h.2.1, h.2.2 100 (by decide)⟩

/-- C2: while the share count is greater than 1, `move` and `assign` return false
and leave the object (payload and share count), the argument and the kernel state
as they were; with share count exactly 1, `move` returns true, keeps the count
and stores what the kernel's `float_move` puts into the destination, which is
the new payload `x` for a kernel whose `float_move` transfers its source. -/
theorem move_assign_uniqueness_gate {F σ : Type} (K : Kernel F σ) (self : LongReal F)
    (x : F) (str : String) (s : σ) :
    (1 < self.refcount →
      LongReal.move K self x s = (false, self, x, s) ∧
      LongReal.assign K self str s = (false, self, s)) ∧
    (self.refcount = 1 →
      (LongReal.move K self x s).1 = true ∧
      (LongReal.move K self x s).2.1.refcount = 1 ∧
      (LongReal.move K self x s).2.1.val = (K.float_move s x).1 ∧
      ((K.float_move s x).1 = x → (LongReal.move K self x s).2.1.val = x)) := by
  constructor
  · intro h
    have hne : self.refcount ≠ 1 := by omega
    simp [LongReal.move, LongReal.assign, hne]
  · intro h
    simp [LongReal.move, h]

/-- Witness of C2 on the reference kernel: a value 7 held by two handles refuses
`move` and `assign`; the same value held by one handle adopts the payload 3. -/
theorem move_assign_uniqueness_gate_witness :
    ((1 : Int) < (LongReal.mk (some (Dec.mk 7 0)) 2).refcount ∧
      LongReal.move refKernel (LongReal.mk (some (Dec.mk 7 0)) 2) (some (Dec.mk 3 0)) refState
        = (false, LongReal.mk (some (Dec.mk 7 0)) 2, some (Dec.mk 3 0), refState) ∧
      LongReal.assign refKernel (LongReal.mk (some (Dec.mk 7 0)) 2) "3" refState
        = (false, LongReal.mk (some (Dec.mk 7 0)) 2, refState)) ∧
    ((LongReal.mk (some (Dec.mk 7 0)) 1).refcount = 1 ∧
      (LongReal.move refKernel (LongReal.mk (some (Dec.mk 7 0)) 1) (some (Dec.mk 3 0))
        refState).1 = true ∧
      (LongReal.move refKernel (LongReal.mk (some (Dec.mk 7 0)) 1) (some (Dec.mk 3 0))
        refState).2.1.val = some (Dec.mk 3 0)) :=
  have h2 := move_assign_uniqueness_gate refKernel (LongReal.mk (some (Dec.mk 7 0)) 2)
    (some (Dec.mk 3 0)) "3" refState
  have h1 := move_assign_uniqueness_gate refKernel (LongReal.mk (some (Dec.mk 7 0)) 1)
    (some (Dec.mk 3 0)) "3" refState
  ⟨⟨by decide, (h2.1 (by decide)).1, (h2.1 (by decide)).2⟩,
   ⟨rfl, (h1.2 rfl).1, (h1.2 rfl).2.2.2 rfl⟩⟩

/-- C3: when the other operand is not of the decimal kind, each of `+`, `-`, `*`,
`/`, `%`, `idiv`, `swapSub`, `swapDiv`, `swapMod`, `swapIdiv` returns
`NotImplemented` and hands back the kernel state it received.  This holds for
every kernel, so also for one that records each primitive call in its state:
no primitive is invoked. -/
theorem arith_foreign_operand_notImplemented {F σ : Type} (K : Kernel F σ) (lp : Int)
    (self : LongReal F) (other : Operand F) (s : σ)
    (h : other.type ≠ VariantType.vLongReal) :
    LongReal.add K lp self other s = (Variant.NotImplemented, s) ∧
    LongReal.sub K lp self other s = (Variant.NotImplemented, s) ∧
    LongReal.mul K lp self other s = (Variant.NotImplemented, s) ∧
    LongReal.div K lp self other s = (Variant.NotImplemented, s) ∧
    LongReal.mod K self other s = (Variant.NotImplemented, s) ∧
    LongReal.idiv K self other s = (Variant.NotImplemented, s) ∧
    LongReal.swapSub K lp self other s = (Variant.NotImplemented, s) ∧
    LongReal.swapDiv K lp self other s = (Variant.NotImplemented, s) ∧
    LongReal.swapMod K self other s = (Variant.NotImplemented, s) ∧
    LongReal.swapIdiv K self other s = (Variant.NotImplemented, s) := by
  have hne : self.type ≠ other.type := by
    intro heq
    exact h (by rw [← heq]; rfl)
  simp [LongReal.add, LongReal.sub, LongReal.mul, LongReal.div, LongReal.mod, LongReal.idiv,
    LongReal.swapSub, LongReal.swapDiv, LongReal.swapMod, LongReal.swapIdiv,
    LongReal.call2, LongReal.call2ND, hne]

/-- Witness of C3 on the reference kernel: 7 combined with an operand of kind
`vOther 0`. -/
theorem arith_foreign_operand_notImplemented_witness :
    (Operand.mk (VariantType.vOther 0) (none : Option Dec)).type ≠ VariantType.vLongReal ∧
    LongReal.add refKernel 10 (LongReal.mk (some (Dec.mk 7 0)) 1)
      (Operand.mk (VariantType.vOther 0) none) refState = (Variant.NotImplemented, refState) ∧
    LongReal.swapIdiv refKernel (LongReal.mk (some (Dec.mk 7 0)) 1)
      (Operand.mk (VariantType.vOther 0) none) refState = (Variant.NotImplemented, refState) :=
  have h := arith_foreign_operand_notImplemented refKernel 10 (LongReal.mk (some (Dec.mk 7 0)) 1)
    (Operand.mk (VariantType.vOther 0) none) refState (by decide)
  ⟨by decide, h.1, h.2.2.2.2.2.2.2.2.2⟩

/-- C4, counterexample: on the reference kernel, `==` between a NaN value and an
operand of kind `vOther 0` yields `NotImplemented`, not `NoOperand`. -/
theorem nan_eq_foreign_operand_notImplemented :
    refKernel.float_isnan (LongReal.mk (none : Option Dec) 1).val = true ∧
    (LongReal.eq refKernel (LongReal.mk none 1) (Operand.mk (VariantType.vOther 0) none)
      refState).1 = Variant.NotImplemented ∧
    (LongReal.eq refKernel (LongReal.mk none 1) (Operand.mk (VariantType.vOther 0) none)
      refState).1 ≠ Variant.NoOperand := by
  decide

/-- C4, amended: with a kernel whose comparison is unordered on NaN, each of the
six predicates applied to a NaN value yields `NoOperand` when the operand is of
the decimal kind, and `NotImplemented` (kernel untouched) when it is not. -/
theorem nan_compare_sentinels {F σ : Type} (K : Kernel F σ) (hK : K.CmpUnorderedOnNaN)
    (self : LongReal F) (other : Operand F) (s : σ) (hnan : self.isNaN K = true) :
    (other.type = VariantType.vLongReal →
      (LongReal.eq K self other s).1 = Variant.NoOperand ∧
      (LongReal.ne K self other s).1 = Variant.NoOperand ∧
      (LongReal.lt K self other s).1 = Variant.NoOperand ∧
      (LongReal.le K self other s).1 = Variant.NoOperand ∧
      (LongReal.gt K self other s).1 = Variant.NoOperand ∧
      (LongReal.ge K self other s).1 = Variant.NoOperand) ∧
    (other.type ≠ VariantType.vLongReal →
      LongReal.eq K self other s = (Variant.NotImplemented, s) ∧
      LongReal.ne K self other s = (Variant.NotImplemented, s) ∧
      LongReal.lt K self other s = (Variant.NotImplemented, s) ∧
      LongReal.le K self other s = (Variant.NotImplemented, s) ∧
      LongReal.gt K self other s = (Variant.NotImplemented, s) ∧
      LongReal.ge K self other s = (Variant.NotImplemented, s)) := by
  have hc : (K.float_cmp s self.val other.num).1 = K.UNORDERED :=
    hK s self.val other.num (Or.inl hnan)
  constructor
  · intro h
    have heq : self.type = other.type := by rw [h]; rfl
    simp [LongReal.eq, LongReal.ne, LongReal.lt, LongReal.le, LongReal.gt, LongReal.ge,
      LongReal.callCmp, heq, hc]
  · intro h
    have hne : self.type ≠ other.type := by
      intro heq
      exact h (by rw [← heq]; rfl)
    simp [LongReal.eq, LongReal.ne, LongReal.lt, LongReal.le, LongReal.gt, LongReal.ge,
      LongReal.callCmp, hne]

/-- Witness of C4 (amended) on the reference kernel: NaN compared with the
decimal 1 and with an operand of kind `vOther 0`. -/
theorem nan_compare_sentinels_witness :
    refKernel.CmpUnorderedOnNaN ∧
    (LongReal.mk (none : Option Dec) 1).isNaN refKernel = true ∧
    (LongReal.eq refKernel (LongReal.mk none 1)
      (Operand.mk VariantType.vLongReal (some (Dec.mk 1 0))) refState).1 = Variant.NoOperand ∧
    (LongReal.ge refKernel (LongReal.mk none 1)
      (Operand.mk VariantType.vLongReal (some (Dec.mk 1 0))) refState).1 = Variant.NoOperand ∧
    LongReal.ne refKernel (LongReal.mk none 1)
      (Operand.mk (VariantType.vOther 0) none) refState = (Variant.NotImplemented, refState) :=
  have hd := nan_compare_sentinels refKernel refKernel_cmpUnorderedOnNaN (LongReal.mk none 1)
    (Operand.mk VariantType.vLongReal (some (Dec.mk 1 0))) refState rfl
  have hf := nan_compare_sentinels refKernel refKernel_cmpUnorderedOnNaN (LongReal.mk none 1)
    (Operand.mk (VariantType.vOther 0) none) refState rfl
  ⟨refKernel_cmpUnorderedOnNaN, rfl, (hd.1 rfl).1, (hd.1 rfl).2.2.2.2.2, (hf.2 (by decide)).2.1⟩

/-- C5: `operator*` and `operator/` run the kernel's addition, not its
multiplication and division: for every kernel they return what `operator+`
returns, and on the reference kernel `2 * 3` yields 5 where the multiplication
primitive under the same `call2` yields 6, and `6 / 3` yields 9 where the
reflected `swapDiv`, which does pass `float_div`, yields 2. -/
theorem mul_div_run_addition_primitive :
    (∀ (F σ : Type) (K : Kernel F σ) (lp : Int) (a : LongReal F) (b : Operand F) (s : σ),
      LongReal.mul K lp a b s = LongReal.add K lp a b s ∧
      LongReal.div K lp a b s = LongReal.add K lp a b s) ∧
    (LongReal.mul refKernel 10 (LongReal.mk (some (Dec.mk 2 0)) 1)
      (Operand.mk VariantType.vLongReal (some (Dec.mk 3 0))) refState).1
      = Variant.ofFloat (some (Dec.mk 5 0)) Error.Success ∧
    (LongReal.call2 refKernel 10 (LongReal.mk (some (Dec.mk 2 0)) 1)
      (Operand.mk VariantType.vLongReal (some (Dec.mk 3 0))) refKernel.float_mul false refState).1
      = Variant.ofFloat (some (Dec.mk 6 0)) Error.Success ∧
    (LongReal.div refKernel 10 (LongReal.mk (some (Dec.mk 6 0)) 1)
      (Operand.mk VariantType.vLongReal (some (Dec.mk 3 0))) refState).1
      = Variant.ofFloat (some (Dec.mk 9 0)) Error.Success ∧
    (LongReal.swapDiv refKernel 10 (LongReal.mk (some (Dec.mk 3 0)) 1)
      (Operand.mk VariantType.vLongReal (some (Dec.mk 6 0))) refState).1
      = Variant.ofFloat (some (Dec.mk 20000000000000 13)) Error.Success := by
  refine ⟨fun F σ K lp a b s => ⟨rfl, rfl⟩, ?_, ?_, ?_, ?_⟩ <;> decide

/-- C6: for a decimal operand, `call2` runs the requested primitive on the two
payloads (swapped when `swap` is set) at `longrealPrec + 5` digits; when the
primitive succeeds the returned number is the kernel's rounding of its result to
`longrealPrec + 3` digits in mode `TONEAREST`, when it fails the returned number
is the unrounded result; in both cases the variant carries the status that
`float_geterror` reports afterwards. -/
theorem call2_eval_round_status {F σ : Type} (K : Kernel F σ) (lp : Int) (self : LongReal F)
    (other : Operand F) (fct : σ → F → F → Int → Bool × F × σ) (swap : Bool) (s : σ)
    (h : other.type = VariantType.vLongReal) :
    let r := if swap then fct (K.float_create s).2 other.num self.val (lp + 5)
             else fct (K.float_create s).2 self.val other.num (lp + 5)
    let rounded := K.float_round r.2.2 r.2.1 (lp + 3) K.TONEAREST
    (r.1 = true → LongReal.call2 K lp self other fct swap s =
      (Variant.ofFloat rounded.2.1 (K.float_geterror rounded.2.2).1,
       (K.float_geterror rounded.2.2).2)) ∧
    (r.1 = false → LongReal.call2 K lp self other fct swap s =
      (Variant.ofFloat r.2.1 (K.float_geterror r.2.2).1, (K.float_geterror r.2.2).2)) := by
  have heq : self.type = other.type := by rw [h]; rfl
  intro r rounded
  constructor
  · intro hr
    cases swap <;>
      simp_all [LongReal.call2, LongReal.evalPrec, LongReal.workPrec, r, rounded]
  · intro hr
    cases swap <;>
      simp_all [LongReal.call2, LongReal.evalPrec, LongReal.workPrec, r, rounded]

/-- Witness of C6 on the reference kernel at precision 10: `1 / 3` through `call2`
with `float_div` succeeds and is rounded to 13 digits; `1 / 0` fails, is not
rounded and carries the kernel's status. -/
theorem call2_eval_round_status_witness :
    (Operand.mk VariantType.vLongReal (some (Dec.mk 3 0))).type = VariantType.vLongReal ∧
    LongReal.call2 refKernel 10 (LongReal.mk (some (Dec.mk 1 0)) 1)
      (Operand.mk VariantType.vLongReal (some (Dec.mk 3 0))) refKernel.float_div false refState
      = (Variant.ofFloat (some (Dec.mk 3333333333333 13)) Error.Success, refState) ∧
    LongReal.call2 refKernel 10 (LongReal.mk (some (Dec.mk 1 0)) 1)
      (Operand.mk VariantType.vLongReal (some (Dec.mk 0 0))) refKernel.float_div false refState
      = (Variant.ofFloat none Ref.ZeroDivide, refState) :=
  have h3 := call2_eval_round_status refKernel 10 (LongReal.mk (some (Dec.mk 1 0)) 1)
    (Operand.mk VariantType.vLongReal (some (Dec.mk 3 0))) refKernel.float_div false refState rfl
  have h0 := call2_eval_round_status refKernel 10 (LongReal.mk (some (Dec.mk 1 0)) 1)
    (Operand.mk VariantType.vLongReal (some (Dec.mk 0 0))) refKernel.float_div false refState rfl
  ⟨rfl, (h3.1 (by decide)).trans (by decide), (h0.2 (by decide)).trans (by decide)⟩

/-- C7: the round trip fails.  For every kernel the tokens handed to `float_in`
carry the integer digits in both digit fields.  On the reference kernel, whose
`float_in` inverts `float_out`, 1.5 is formatted in base 10 fixed-point as
integer part "1" and fractional part "5", and parsing that record yields 1.1,
which compares less than 1.5; the same tokens with the fractional digits taken
from the record's own field parse back to 1.5. -/
theorem convert_roundtrip_loses_fraction :
    (∀ (F σ : Type) (K : Kernel F σ) (lp : Int) ( io : BasicIO),
      (LongReal.convertTokens K lp io).intpart = io.intpart ∧
      (LongReal.convertTokens K lp io).fracpart = io.intpart) ∧
    (LongReal.convert refKernel 10 (LongReal.mk (some (Dec.mk 15 1)) 1) 10 FmtMode.FixPoint
      10 10 refState).1
      = { baseSignificand := 10, baseScale := 10, signSignificand := Sign.None,
          signScale := Sign.None, intpart := "1", fracpart := "5", scale := "",
          error := Error.Success } ∧
    (LongReal.convertRecord refKernel 10
      (LongReal.convert refKernel 10 (LongReal.mk (some (Dec.mk 15 1)) 1) 10 FmtMode.FixPoint
        10 10 refState).1 refState).1
      = (Variant.ofFloat (some (Dec.mk 11 1)) Error.Success : Variant (Option Dec)) ∧
    (refKernel.float_cmp refState (some (Dec.mk 11 1)) (some (Dec.mk 15 1))).1 = -1 ∧
    (LongReal.eq refKernel (LongReal.mk (some (Dec.mk 11 1)) 1)
      (Operand.mk VariantType.vLongReal (some (Dec.mk 15 1))) refState).1
      = Variant.ofBool false ∧
    (refKernel.float_in refState
      { LongReal.convertTokens refKernel 10
          (LongReal.convert refKernel 10 (LongReal.mk (some (Dec.mk 15 1)) 1) 10
            FmtMode.FixPoint 10 10 refState).1 with fracpart := "5" }).2.1
      = some (Dec.mk 15 1) := by
  refine ⟨fun F σ K lp io => ?_, ?_, ?_, ?_, ?_, ?_⟩
  · unfold LongReal.convertTokens
    split <;> exact ⟨rfl, rfl⟩
  all_goals decide

/-- The `switch` of `setMode` ends in the default assignment for every base, so
the maximum is the precision itself. -/
theorem RealFormat.maxdgt_eq_precision (precision b : Int) :
    RealFormat.maxdgt precision b = precision := by
  have h : Int.tdiv (precision * 643) 643 = precision :=
    Int.mul_tdiv_cancel precision (by decide)
  have he : (if b = 2 then 0 else if b = 8 then 1 else if b = 16 then 2 else 3 : Nat) ≤ 3 := by
    split_ifs <;> omega
  simp only [RealFormat.maxdgt, he, if_true]
  exact h

/-- C8: `setMode` does not give each base its own ratio.  For every base, a
requested digit count `≤ 0` stores `P * 643 / 643 = P`, with `P` the clamped
precision; on the reference kernel with precision 10 the stored digit count is
10 for base 2, 8 and 16, where the per-base ratios give 33, 11 and 8. -/
theorem setMode_digits_same_for_every_base :
    (∀ (F σ : Type) (K : Kernel F σ) (self : RealFormat) (m : FmtMode) (dgt b sb prec : Int),
      dgt ≤ 0 →
      (RealFormat.setMode K self m dgt b sb prec).digits
        = Int.tdiv ((RealFormat.setMode K self m dgt b sb prec).precision * 643) 643 ∧
      (RealFormat.setMode K self m dgt b sb prec).digits
        = (RealFormat.setMode K self m dgt b sb prec).precision) ∧
    (RealFormat.setMode refKernel (RealFormat.mk FmtMode.FixPoint 0 0 0 0) FmtMode.FixPoint
      0 2 10 10).digits = 10 ∧
    Int.tdiv (10 * 2136) 643 = 33 ∧
    (RealFormat.setMode refKernel (RealFormat.mk FmtMode.FixPoint 0 0 0 0) FmtMode.FixPoint
      0 8 10 10).digits = 10 ∧
    Int.tdiv (10 * 712) 643 = 11 ∧
    (RealFormat.setMode refKernel (RealFormat.mk FmtMode.FixPoint 0 0 0 0) FmtMode.FixPoint
      0 16 10 10).digits = 10 ∧
    Int.tdiv (10 * 534) 643 = 8 := by
  refine ⟨fun F σ K self m dgt b sb prec hd => ?_, ?_, ?_, ?_, ?_, ?_, ?_⟩
  · have hm : ∀ q : Int, Int.tdiv (q * 643) 643 = q := fun q =>
      Int.mul_tdiv_cancel q (by decide)
    have hl : dgt ≤ 0 ∨ dgt > RealFormat.maxdgt
        (if prec ≤ 0 ∨ prec > K.DECPRECISION then K.DECPRECISION else prec) b := Or.inl hd
    simp only [RealFormat.setMode, hl, if_true, hm]
    exact ⟨RealFormat.maxdgt_eq_precision _ _, RealFormat.maxdgt_eq_precision _ _⟩
  all_goals decide

/-- C9: with a positive `DECPRECISION`, `setMode` stores a precision in
`[1, DECPRECISION]`, equal to `prec` when `1 ≤ prec ≤ DECPRECISION` and to
`DECPRECISION` when `prec ≤ 0` or `prec > DECPRECISION`; the stored digit count
is `dgt` when `1 ≤ dgt ≤ maxdgt` and `maxdgt` otherwise, `maxdgt` being the
maximum the function computes from the stored precision and the base. -/
theorem setMode_clamps_precision_and_digits {F σ : Type} (K : Kernel F σ)
    (hD : 0 < K.DECPRECISION) (self : RealFormat) (m : FmtMode) (dgt b sb prec : Int) :
    1 ≤ (RealFormat.setMode K self m dgt b sb prec).precision ∧
    (RealFormat.setMode K self m dgt b sb prec).precision ≤ K.DECPRECISION ∧
    (1 ≤ prec ∧ prec ≤ K.DECPRECISION →
      (RealFormat.setMode K self m dgt b sb prec).precision = prec) ∧
    (prec ≤ 0 ∨ prec > K.DECPRECISION →
      (RealFormat.setMode K self m dgt b sb prec).precision = K.DECPRECISION) ∧
    (1 ≤ dgt ∧ dgt ≤ RealFormat.maxdgt (RealFormat.setMode K self m dgt b sb prec).precision b →
      (RealFormat.setMode K self m dgt b sb prec).digits = dgt) ∧
    (¬ (1 ≤ dgt ∧ dgt ≤ RealFormat.maxdgt (RealFormat.setMode K self m dgt b sb prec).precision b) →
      (RealFormat.setMode K self m dgt b sb prec).digits
        = RealFormat.maxdgt (RealFormat.setMode K self m dgt b sb prec).precision b) := by
  simp only [RealFormat.setMode]
  refine ⟨?_, ?_, ?_, ?_, ?_, ?_⟩
  · split <;> omega
  · split <;> omega
  · intro h
    have hn : ¬ (prec ≤ 0 ∨ prec > K.DECPRECISION) := by omega
    simp [hn]
  · intro h
    simp [h]
  · intro h
    have hn : ¬ (dgt ≤ 0 ∨ dgt > RealFormat.maxdgt
        (if prec ≤ 0 ∨ prec > K.DECPRECISION then K.DECPRECISION else prec) b) := by omega
    simp only [hn, if_false]
  · intro h
    have hy : dgt ≤ 0 ∨ dgt > RealFormat.maxdgt
        (if prec ≤ 0 ∨ prec > K.DECPRECISION then K.DECPRECISION else prec) b := by omega
    simp only [hy, if_true]

/-- Witness of C9 on the reference kernel (`DECPRECISION = 78`): precision 10 and
digit count 4 are kept, precision 0 and 100 become 78, digit counts 0 and 20
become the maximum 10. -/
theorem setMode_clamps_precision_and_digits_witness :
    (0 : Int) < refKernel.DECPRECISION ∧
    (RealFormat.setMode refKernel (RealFormat.mk FmtMode.FixPoint 0 0 0 0) FmtMode.Scientific
      4 10 10 10) = RealFormat.mk FmtMode.Scientific 10 10 10 4 ∧
    (RealFormat.setMode refKernel (RealFormat.mk FmtMode.FixPoint 0 0 0 0) FmtMode.Scientific
      4 10 10 0).precision = 78 ∧
    (RealFormat.setMode refKernel (RealFormat.mk FmtMode.FixPoint 0 0 0 0) FmtMode.Scientific
      4 10 10 100).precision = 78 ∧
    (RealFormat.setMode refKernel (RealFormat.mk FmtMode.FixPoint 0 0 0 0) FmtMode.Scientific
      0 10 10 10).digits = 10 ∧
    (RealFormat.setMode refKernel (RealFormat.mk FmtMode.FixPoint 0 0 0 0) FmtMode.Scientific
      20 10 10 10).digits = 10 :=
  have h0 := setMode_clamps_precision_and_digits refKernel (by decide)
    (RealFormat.mk FmtMode.FixPoint 0 0 0 0) FmtMode.Scientific 4 10 10 0
  have h100 := setMode_clamps_precision_and_digits refKernel (by decide)
    (RealFormat.mk FmtMode.FixPoint 0 0 0 0) FmtMode.Scientific 4 10 10 100
  have hd0 := setMode_clamps_precision_and_digits refKernel (by decide)
    (RealFormat.mk FmtMode.FixPoint 0 0 0 0) FmtMode.Scientific 0 10 10 10
  have hd20 := setMode_clamps_precision_and_digits refKernel (by decide)
    (RealFormat.mk FmtMode.FixPoint 0 0 0 0) FmtMode.Scientific 20 10 10 10
  ⟨by decide, by decide, h0.2.2.2.1 (by decide), h100.2.2.2.1 (by decide),
   (hd0.2.2.2.2.2 (by decide)).trans (by decide),
   (hd20.2.2.2.2.2 (by decide)).trans (by decide)⟩

/-- C10: `format` returns "NaN" for a NaN value and "0" for a zero value, whatever
the mode, base, scale base, digit count and precision of the format and whatever
`longrealPrec`; the kernel state comes back untouched for every kernel, so
neither `convert` nor any primitive it calls is run. -/
theorem format_nan_and_zero_literals {F σ : Type} (K : Kernel F σ) (lp : Int)
    (self : RealFormat) (v : LongReal F) (s : σ) :
    (v.isNaN K = true →
      RealFormat.format K lp self (VariantData.longReal v) s = ("NaN", s)) ∧
    (v.isNaN K = false → v.isZero K = true →
      RealFormat.format K lp self (VariantData.longReal v) s = ("0", s)) := by
  constructor
  · intro h
    simp [RealFormat.format, RealFormat.formatNaN, h]
  · intro hn hz
    simp [RealFormat.format, RealFormat.formatZero, hn, hz]

/-- Witness of C10 on the reference kernel: NaN and 0 under a scientific base-16
format. -/
theorem format_nan_and_zero_literals_witness :
    (LongReal.mk (none : Option Dec) 1).isNaN refKernel = true ∧
    RealFormat.format refKernel 10 (RealFormat.mk FmtMode.Scientific 16 10 10 8)
      (VariantData.longReal (LongReal.mk none 1)) refState = ("NaN", refState) ∧
    (LongReal.mk (some (Dec.mk 0 2)) 1).isNaN refKernel = false ∧
    (LongReal.mk (some (Dec.mk 0 2)) 1).isZero refKernel = true ∧
    RealFormat.format refKernel 10 (RealFormat.mk FmtMode.Scientific 16 10 10 8)
      (VariantData.longReal (LongReal.mk (some (Dec.mk 0 2)) 1)) refState = ("0", refState) :=
  have hn := format_nan_and_zero_literals refKernel 10
    (RealFormat.mk FmtMode.Scientific 16 10 10 8) (LongReal.mk none 1) refState
  have hz := format_nan_and_zero_literals refKernel 10
    (RealFormat.mk FmtMode.Scientific 16 10 10 8) (LongReal.mk (some (Dec.mk 0 2)) 1) refState
  ⟨rfl, hn.1 rfl, rfl, rfl, hz.2 rfl rfl⟩

/-- Writing at `p` and reading `p` back. -/
theorem Heap.set_same {F : Type} (h : Heap F) (p : Nat) (o : Option (LongReal F)) :
    h.set p o p = o := by
  simp [Heap.set]

/-- Writing at `p` leaves every other address alone. -/
theorem Heap.set_other {F : Type} (h : Heap F) (p q : Nat) (o : Option (LongReal F))
    (hq : q ≠ p) : h.set p o q = h q := by
  simp [Heap.set, hq]

/-- The reference kernel keeps its precision as the contract asks. -/
theorem refKernel_precisionContract : refKernel.PrecisionContract RefState.precision where
  returns_prior := fun _ _ => rfl
  stores := fun _ _ => rfl
  last_wins := fun _ _ _ => rfl
  create_keeps := fun _ => rfl
  divmod_keeps := by
    intro s a b d
    cases a <;> cases b <;> simp [refKernel, Ref.float_divmod, Ref.fail]
    split <;> rfl
  free_keeps := fun _ _ => rfl

/-- C11: for a live object at `this` with share count `n ≥ 1`, `clone()` returns the
handle `this` itself and leaves the same payload there with count `n + 1`, other
objects untouched; a following `release()` on that handle returns the heap to
its state before the clone (count `n`, same payload) without freeing anything in
the kernel; and `release()` on the original object deletes it exactly when its
count was 1, in which case the payload is freed. -/
theorem clone_release_share_count {F σ : Type} (K : Kernel F σ) (h : Heap F) (this : Nat)
    (o : LongReal F) (s : σ) (hlive : h this = some o) (hn : 1 ≤ o.refcount) :
    (∃ h1 : Heap F, LongReal.clone h this = some (this, h1) ∧
      h1 this = some { val := o.val, refcount := o.refcount + 1 } ∧
      (∀ q : Nat, q ≠ this → h1 q = h q) ∧
      ∃ h2 : Heap F, LongReal.release K h1 this s = some (h2, s) ∧
        h2 this = some o ∧ ∀ q : Nat, h2 q = h q) ∧
    (∃ (h3 : Heap F) (s3 : σ), LongReal.release K h this s = some (h3, s3) ∧
      (h3 this = none ↔ o.refcount = 1) ∧
      (o.refcount = 1 → s3 = K.float_free s o.val) ∧
      (o.refcount ≠ 1 → s3 = s ∧ h3 this = some { val := o.val, refcount := o.refcount - 1 }) ∧
      ∀ q : Nat, q ≠ this → h3 q = h q) := by
  constructor
  · refine ⟨h.set this (some { val := o.val, refcount := o.refcount + 1 }), ?_,
      Heap.set_same _ _ _, fun q hq => Heap.set_other _ _ _ _ hq, ?_⟩
    · simp [LongReal.clone, hlive]
    · refine ⟨(h.set this (some { val := o.val, refcount := o.refcount + 1 })).set this
        (some o), ?_, Heap.set_same _ _ _, ?_⟩
      · have hgt : ¬ (o.refcount + 1 - 1 ≤ 0) := by omega
        have hback : o.refcount + 1 - 1 = o.refcount := by omega
        simp [LongReal.release, Heap.set_same, hback]
        omega
      · intro q
        by_cases hq : q = this
        · subst hq
          rw [Heap.set_same, hlive]
        · rw [Heap.set_other _ _ _ _ hq, Heap.set_other _ _ _ _ hq]
  · by_cases h1 : o.refcount = 1
    · refine ⟨h.set this none, K.float_free s o.val, ?_, ?_, fun _ => rfl, ?_,
        fun q hq => Heap.set_other _ _ _ _ hq⟩
      · simp [LongReal.release, hlive, h1]
      · simp [Heap.set_same, h1]
      · intro hne
        exact absurd h1 hne
    · have hgt : ¬ (o.refcount - 1 ≤ 0) := by omega
      refine ⟨h.set this (some { val := o.val, refcount := o.refcount - 1 }), s, ?_, ?_, ?_, ?_,
        fun q hq => Heap.set_other _ _ _ _ hq⟩
      · simp [LongReal.release, hlive, hgt]
      · simp [Heap.set_same, h1]
      · intro he
        exact absurd he h1
      · intro _
        exact ⟨rfl, Heap.set_same _ _ _⟩

/-- Witness of C11 on the reference kernel: the value 7 at address 0 with one
handle is cloned to count 2 and released back to count 1; releasing the single
handle deletes the object. -/
theorem clone_release_share_count_witness :
    refHeap 0 = some (LongReal.mk (some (Dec.mk 7 0)) 1) ∧
    (1 : Int) ≤ (LongReal.mk (some (Dec.mk 7 0)) 1).refcount ∧
    (∃ h1 : Heap (Option Dec), LongReal.clone refHeap 0 = some (0, h1) ∧
      h1 0 = some (LongReal.mk (some (Dec.mk 7 0)) 2) ∧
      ∃ h2 : Heap (Option Dec), LongReal.release refKernel h1 0 refState = some (h2, refState) ∧
        h2 0 = some (LongReal.mk (some (Dec.mk 7 0)) 1)) ∧
    (∃ (h3 : Heap (Option Dec)) (s3 : RefState),
      LongReal.release refKernel refHeap 0 refState = some (h3, s3) ∧ h3 0 = none) := by
  have h := clone_release_share_count refKernel refHeap 0 (LongReal.mk (some (Dec.mk 7 0)) 1)
    refState rfl (by decide)
  obtain ⟨⟨h1, hc, h1v, _, h2, hr, h2v, _⟩, h3, s3, hr3, hiff, _⟩ := h
  exact ⟨rfl, by decide, ⟨h1, hc, h1v, h2, hr, h2v⟩, ⟨h3, s3, hr3, hiff.2 rfl⟩⟩

/-- C12: `precision(n)` returns the value `longrealPrec` had before the call, for
every `n` and every `DECPRECISION`; for negative `n` it leaves `longrealPrec` as
it was. -/
theorem precision_returns_previous {F σ : Type} (K : Kernel F σ) (old n : Int) :
    (LongReal.precision K old n).1 = old ∧
    (n < 0 → (LongReal.precision K old n).2 = old) := by
  refine ⟨rfl, fun hn => ?_⟩
  have h0 : n ≠ 0 := by omega
  simp only [LongReal.precision]
  by_cases hD : n > K.DECPRECISION
  · have hneg : ¬ (K.DECPRECISION > 0) := by omega
    simp [h0, hD, hneg]
  · have hneg : ¬ (n > 0) := by omega
    simp [h0, hD, hneg]

/-- Witness of C12 on the reference kernel: from the setting 10, `precision(20)`
and `precision(-5)` both return 10, and `precision(-5)` keeps the setting 10. -/
theorem precision_returns_previous_witness :
    (LongReal.precision refKernel 10 20).1 = 10 ∧
    (LongReal.precision refKernel 10 (-5)).1 = 10 ∧
    ((-5 : Int) < 0 ∧ (LongReal.precision refKernel 10 (-5)).2 = 10) :=
  ⟨(precision_returns_previous refKernel 10 20).1,
   (precision_returns_previous refKernel 10 (-5)).1,
   by decide, (precision_returns_previous refKernel 10 (-5)).2 (by decide)⟩

/-- C13: unary plus returns `NoOperand` if and only if the value is NaN; on every
other value it returns the variant built from the object itself, payload and
share count unchanged, and it calls no kernel primitive that could round or
compute (the function takes and returns no kernel state). -/
theorem unary_plus_identity_unless_nan {F σ : Type} (K : Kernel F σ) (self : LongReal F) :
    (LongReal.plus K self = Variant.NoOperand ↔ self.isNaN K = true) ∧
    (self.isNaN K = false → LongReal.plus K self = Variant.ofData self) := by
  unfold LongReal.plus LongReal.isNaN
  constructor
  · constructor
    · intro h
      by_cases hn : K.float_isnan self.val = true
      · exact hn
      · simp [hn] at h
    · intro hn
      simp [hn]
  · intro hn
    simp [hn]

/-- Witness of C13 on the reference kernel: plus on NaN is `NoOperand`, plus on 7
is the object itself. -/
theorem unary_plus_identity_unless_nan_witness :
    (LongReal.mk (none : Option Dec) 1).isNaN refKernel = true ∧
    LongReal.plus refKernel (LongReal.mk (none : Option Dec) 1) = Variant.NoOperand ∧
    (LongReal.mk (some (Dec.mk 7 0)) 2).isNaN refKernel = false ∧
    LongReal.plus refKernel (LongReal.mk (some (Dec.mk 7 0)) 2)
      = Variant.ofData (LongReal.mk (some (Dec.mk 7 0)) 2) :=
  ⟨rfl, (unary_plus_identity_unless_nan refKernel (LongReal.mk none 1)).1.2 rfl, rfl,
   (unary_plus_identity_unless_nan refKernel (LongReal.mk (some (Dec.mk 7 0)) 2)).2 rfl⟩

/-- C14: for a kernel that keeps its precision as `PrecisionContract` says, `_mod`
runs `float_divmod` in a state whose precision is 250 and `_idiv` in a state
whose precision is `DECPRECISION`, whatever precision was in force; the status
and the number they return are those of that `float_divmod` call and stay the
same when the precision in force before the call is changed to any `n`; and the
precision in force after the call is the one before it, whatever the status. -/
theorem mod_idiv_precision_override {F σ : Type} (K : Kernel F σ) (prec : σ → Int)
    (hK : K.PrecisionContract prec) (s : σ) (dividend modulo : F) (n : Int) :
    let sm := (K.float_create (K.float_setprecision s 250).2).2
    let si := (K.float_create (K.float_setprecision s K.DECPRECISION).2).2
    (prec sm = 250 ∧
      (_mod K s dividend modulo).1 = (K.float_divmod sm dividend modulo K.INTQUOT).1 ∧
      (_mod K s dividend modulo).2.1 = (K.float_divmod sm dividend modulo K.INTQUOT).2.2.1 ∧
      (_mod K (K.float_setprecision s n).2 dividend modulo).1 = (_mod K s dividend modulo).1 ∧
      (_mod K (K.float_setprecision s n).2 dividend modulo).2.1
        = (_mod K s dividend modulo).2.1 ∧
      prec (_mod K s dividend modulo).2.2 = prec s) ∧
    (prec si = K.DECPRECISION ∧
      (_idiv K s dividend modulo).1 = (K.float_divmod si dividend modulo K.INTQUOT).1 ∧
      (_idiv K s dividend modulo).2.1 = (K.float_divmod si dividend modulo K.INTQUOT).2.1 ∧
      (_idiv K (K.float_setprecision s n).2 dividend modulo).1
        = (_idiv K s dividend modulo).1 ∧
      (_idiv K (K.float_setprecision s n).2 dividend modulo).2.1
        = (_idiv K s dividend modulo).2.1 ∧
      prec (_idiv K s dividend modulo).2.2 = prec s) := by
  intro sm si
  refine ⟨⟨?_, rfl, rfl, ?_, ?_, ?_⟩, ⟨?_, rfl, rfl, ?_, ?_, ?_⟩⟩
  · simp only [sm, hK.create_keeps, hK.stores]
  · simp only [_mod, hK.last_wins]
  · simp only [_mod, hK.last_wins]
  · simp only [_mod, hK.stores, hK.returns_prior]
  · simp only [si, hK.create_keeps, hK.stores]
  · simp only [_idiv, hK.last_wins]
  · simp only [_idiv, hK.last_wins]
  · simp only [_idiv, hK.stores, hK.returns_prior]

/-- Witness of C14 on the reference kernel: 7 modulo 2 is 1 and 7 integer-divided
by 2 is 3, under kernel precision 78 and under kernel precision 5 alike, and
the kernel precision is 78 again after both calls. -/
theorem mod_idiv_precision_override_witness :
    refKernel.PrecisionContract RefState.precision ∧
    _mod refKernel refState (some (Dec.mk 7 0)) (some (Dec.mk 2 0))
      = (true, some (Dec.mk 1 0), refState) ∧
    (_mod refKernel (refKernel.float_setprecision refState 5).2 (some (Dec.mk 7 0))
      (some (Dec.mk 2 0))).2.1 = some (Dec.mk 1 0) ∧
    _idiv refKernel refState (some (Dec.mk 7 0)) (some (Dec.mk 2 0))
      = (true, some (Dec.mk 3 0), refState) ∧
    (_idiv refKernel (refKernel.float_setprecision refState 5).2 (some (Dec.mk 7 0))
      (some (Dec.mk 2 0))).2.1 = some (Dec.mk 3 0) ∧
    RefState.precision (_mod refKernel refState (some (Dec.mk 7 0)) (some (Dec.mk 2 0))).2.2
      = RefState.precision refState :=
  have h := mod_idiv_precision_override refKernel RefState.precision
    refKernel_precisionContract refState (some (Dec.mk 7 0)) (some (Dec.mk 2 0)) 5
  ⟨refKernel_precisionContract, by decide, h.1.2.2.2.2.1.trans (by decide), by decide,
   h.2.2.2.2.2.1.trans (by decide), h.1.2.2.2.2.2⟩

/-- C15: the tokens `convert(const BasicIO&)` builds take integer digits, sign,
base, digit bound and scale from the record as the claim says, but the
fractional digits are the record's integer digits: they agree with `io.fracpart`
only when both fields hold the same text.  For the record of 1.5 (integer part
"1", fractional part "5") the fractional token is "1". -/
theorem convertTokens_fraction_from_integer_field :
    (∀ (F σ : Type) (K : Kernel F σ) (lp : Int) ( io : BasicIO),
      (LongReal.convertTokens K lp io).intpart = io.intpart ∧
      (LongReal.convertTokens K lp io).sign = _cvtSignCode K io.signSignificand ∧
      (LongReal.convertTokens K lp io).base = io.baseSignificand ∧
      (LongReal.convertTokens K lp io).maxdigits = LongReal.evalPrec lp ∧
      (io.scale ≠ "" →
        (LongReal.convertTokens K lp io).exp = some io.scale ∧
        (LongReal.convertTokens K lp io).expbase = io.baseScale ∧
        (LongReal.convertTokens K lp io).expsign = K.signCode io.signScale) ∧
      (io.scale = "" →
        (LongReal.convertTokens K lp io).exp = none ∧
        (LongReal.convertTokens K lp io).expbase = K.IO_BASE_NAN ∧
        (LongReal.convertTokens K lp io).expsign = K.IO_SIGN_NONE) ∧
      ((LongReal.convertTokens K lp io).fracpart = io.fracpart ↔ io.intpart = io.fracpart)) ∧
    (LongReal.convertTokens refKernel 10
      { baseSignificand := 10, baseScale := 10, signSignificand := Sign.None,
        signScale := Sign.None, intpart := "1", fracpart := "5", scale := "",
        error := Error.Success }).fracpart = "1" ∧
    (LongReal.convertTokens refKernel 10
      { baseSignificand := 10, baseScale := 10, signSignificand := Sign.None,
        signScale := Sign.None, intpart := "1", fracpart := "5", scale := "",
        error := Error.Success }).fracpart ≠ "5" := by
  refine ⟨fun F σ K lp io => ?_, by decide, by decide⟩
  by_cases hs : io.scale = ""
  · simp [LongReal.convertTokens, hs]
  · simp [LongReal.convertTokens, hs]

/-- C16: `format` returns the significand prefix alone.  For every set of hooks,
a value that is neither NaN nor zero and converts with status `Success` is
rendered as `getSignificandPrefix()`; with the hooks of `RealFormat` itself this
is what `format` returns.  With a derived format that renders digits, 1.5 in
base 10 fixed-point is rendered as the empty text where the full composition of
its tokenized record is "1.5". -/
theorem format_returns_prefix_only :
    (∀ (F σ : Type) (K : Kernel F σ) (lp : Int) (hooks : RealFormat.Hooks) (self : RealFormat)
      (v : LongReal F) (s : σ),
      v.isNaN K = false → v.isZero K = false →
      (v.convert K lp self.precision self.mode self.base self.scalebase s).1.error
        = Error.Success →
      (RealFormat.formatWith K lp hooks self (VariantData.longReal v) s).1
        = hooks.getSignificandPrefix self) ∧
    (∀ (F σ : Type) (K : Kernel F σ) (lp : Int) (self : RealFormat) (val : VariantData F) (s : σ),
      RealFormat.format K lp self val s = RealFormat.formatWith K lp RealFormat.ownHooks self val s) ∧
    (LongReal.convert refKernel 10 (LongReal.mk (some (Dec.mk 15 1)) 1) 10 FmtMode.FixPoint
      10 10 refState).1.error = Error.Success ∧
    (RealFormat.formatWith refKernel 10 plainHooks (RealFormat.mk FmtMode.FixPoint 10 10 10 10)
      (VariantData.longReal (LongReal.mk (some (Dec.mk 15 1)) 1)) refState).1 = "" ∧
    RealFormat.fullComposition plainHooks (RealFormat.mk FmtMode.FixPoint 10 10 10 10)
      (LongReal.convert refKernel 10 (LongReal.mk (some (Dec.mk 15 1)) 1) 10 FmtMode.FixPoint
        10 10 refState).1 = "1.5" := by
  refine ⟨fun F σ K lp hooks self v s hn hz he => ?_, fun F σ K lp self val s => ?_,
    by decide, by decide, by decide⟩
  · simp [RealFormat.formatWith, hn, hz, he]
  · cases val <;> rfl

/-- C17: for a decimal operand whose kernel comparison `c` is not `UNORDERED`,
`==` is true iff `c = 0`, `!=` iff `c ≠ 0`, `<` iff `c < 0`, `<=` iff `c ≤ 0`,
`>` iff `c > 0` and `>=` iff `c ≥ 0`; so `!=` is the negation of `==`, `<=` of
`>` and `>=` of `<`. -/
theorem compare_predicates_by_sign {F σ : Type} (K : Kernel F σ) (self : LongReal F)
    (other : Operand F) (s : σ) (h : other.type = VariantType.vLongReal)
    (hc : (K.float_cmp s self.val other.num).1 ≠ K.UNORDERED) :
    let c := (K.float_cmp s self.val other.num).1
    (LongReal.eq K self other s).1 = Variant.ofBool (decide (c = 0)) ∧
    (LongReal.ne K self other s).1 = Variant.ofBool (decide (c ≠ 0)) ∧
    (LongReal.lt K self other s).1 = Variant.ofBool (decide (c < 0)) ∧
    (LongReal.le K self other s).1 = Variant.ofBool (decide (c ≤ 0)) ∧
    (LongReal.gt K self other s).1 = Variant.ofBool (decide (c > 0)) ∧
    (LongReal.ge K self other s).1 = Variant.ofBool (decide (c ≥ 0)) ∧
    (LongReal.ne K self other s).1 = Variant.ofBool (!decide (c = 0)) ∧
    (LongReal.le K self other s).1 = Variant.ofBool (!decide (c > 0)) ∧
    (LongReal.ge K self other s).1 = Variant.ofBool (!decide (c < 0)) := by
  have heq : self.type = other.type := by rw [h]; rfl
  intro c
  have e1 : equal &&& less = 0 := by decide
  have e2 : equal &&& greater = 0 := by decide
  have e3 : equal &&& equal = 2 := by decide
  have n1 : (less ||| greater) &&& less = 1 := by decide
  have n2 : (less ||| greater) &&& greater = 4 := by decide
  have n3 : (less ||| greater) &&& equal = 0 := by decide
  have l1 : less &&& less = 1 := by decide
  have l2 : less &&& greater = 0 := by decide
  have l3 : less &&& equal = 0 := by decide
  have le1 : (less ||| equal) &&& less = 1 := by decide
  have le2 : (less ||| equal) &&& greater = 0 := by decide
  have le3 : (less ||| equal) &&& equal = 2 := by decide
  have g1 : greater &&& less = 0 := by decide
  have g2 : greater &&& greater = 4 := by decide
  have g3 : greater &&& equal = 0 := by decide
  have ge1 : (greater ||| equal) &&& less = 0 := by decide
  have ge2 : (greater ||| equal) &&& greater = 4 := by decide
  have ge3 : (greater ||| equal) &&& equal = 2 := by decide
  rcases lt_trichotomy c 0 with hlt | hz | hgt
  · have a1 : ¬ c > 0 := by omega
    have a2 : ¬ c = 0 := by omega
    have a3 : c ≤ 0 := by omega
    have a4 : ¬ c ≥ 0 := by omega
    simp [LongReal.eq, LongReal.ne, LongReal.lt, LongReal.le, LongReal.gt, LongReal.ge,
      LongReal.callCmp, heq, e1, e2, e3, n1, n2, n3, l1, l2, l3, le1, le2, le3, g1, g2, g3,
      ge1, ge2, ge3, c, hc, hlt, a1, a2, a3, a4]
  · have a1 : ¬ c > 0 := by omega
    have a2 : ¬ c < 0 := by omega
    have a3 : c ≤ 0 := by omega
    have a4 : c ≥ 0 := by omega
    have hz0 : (K.float_cmp s self.val other.num).1 = 0 := hz
    have hU : ¬ (0 = K.UNORDERED) := by
      rw [← hz0]
      exact hc
    simp [LongReal.eq, LongReal.ne, LongReal.lt, LongReal.le, LongReal.gt, LongReal.ge,
      LongReal.callCmp, heq, e1, e2, e3, n1, n2, n3, l1, l2, l3, le1, le2, le3, g1, g2, g3,
      ge1, ge2, ge3, c, hz0, hU, a1, a2, a3, a4]
  · have a1 : ¬ c < 0 := by omega
    have a2 : ¬ c = 0 := by omega
    have a3 : ¬ c ≤ 0 := by omega
    have a4 : c ≥ 0 := by omega
    simp [LongReal.eq, LongReal.ne, LongReal.lt, LongReal.le, LongReal.gt, LongReal.ge,
      LongReal.callCmp, heq, e1, e2, e3, n1, n2, n3, l1, l2, l3, le1, le2, le3, g1, g2, g3,
      ge1, ge2, ge3, c, hc, hgt, a1, a2, a3, a4]

/-- Witness of C17 on the reference kernel: 1 compared with 2 (`c = -1`). -/
theorem compare_predicates_by_sign_witness :
    (Operand.mk VariantType.vLongReal (some (Dec.mk 2 0))).type = VariantType.vLongReal ∧
    (refKernel.float_cmp refState (some (Dec.mk 1 0)) (some (Dec.mk 2 0))).1
      ≠ refKernel.UNORDERED ∧
    (LongReal.eq refKernel (LongReal.mk (some (Dec.mk 1 0)) 1)
      (Operand.mk VariantType.vLongReal (some (Dec.mk 2 0))) refState).1 = Variant.ofBool false ∧
    (LongReal.ne refKernel (LongReal.mk (some (Dec.mk 1 0)) 1)
      (Operand.mk VariantType.vLongReal (some (Dec.mk 2 0))) refState).1 = Variant.ofBool true ∧
    (LongReal.lt refKernel (LongReal.mk (some (Dec.mk 1 0)) 1)
      (Operand.mk VariantType.vLongReal (some (Dec.mk 2 0))) refState).1 = Variant.ofBool true ∧
    (LongReal.ge refKernel (LongReal.mk (some (Dec.mk 1 0)) 1)
      (Operand.mk VariantType.vLongReal (some (Dec.mk 2 0))) refState).1 = Variant.ofBool false :=
  have h := compare_predicates_by_sign refKernel (LongReal.mk (some (Dec.mk 1 0)) 1)
    (Operand.mk VariantType.vLongReal (some (Dec.mk 2 0))) refState rfl (by decide)
  ⟨rfl, by decide, h.1.trans (by decide), h.2.1.trans (by decide), h.2.2.1.trans (by decide),
   h.2.2.2.2.2.1.trans (by decide)⟩

/-- C18: reflected and direct dispatch agree for subtraction, modulo and integer
division, for every kernel; they do not agree for division: `a.swapDiv(b)` runs
`float_div` on `b` and `a`, while `b / a` runs `float_add` on them.  On the
reference kernel, with `a = 3` and `b = 6`, `a.swapDiv(b)` is 2 and `b / a` is 9. -/
theorem reflected_div_differs_from_direct :
    (∀ (F σ : Type) (K : Kernel F σ) (lp : Int) (a b : LongReal F) (s : σ),
      LongReal.swapSub K lp a b.asOperand s = LongReal.sub K lp b a.asOperand s ∧
      LongReal.swapMod K a b.asOperand s = LongReal.mod K b a.asOperand s ∧
      LongReal.swapIdiv K a b.asOperand s = LongReal.idiv K b a.asOperand s ∧
      LongReal.swapDiv K lp a b.asOperand s
        = LongReal.call2 K lp b a.asOperand K.float_div false s ∧
      LongReal.div K lp b a.asOperand s
        = LongReal.call2 K lp b a.asOperand K.float_add false s) ∧
    (LongReal.swapDiv refKernel 10 (LongReal.mk (some (Dec.mk 3 0)) 1)
      (LongReal.mk (some (Dec.mk 6 0)) 1).asOperand refState).1
      = Variant.ofFloat (some (Dec.mk 20000000000000 13)) Error.Success ∧
    (LongReal.div refKernel 10 (LongReal.mk (some (Dec.mk 6 0)) 1)
      (LongReal.mk (some (Dec.mk 3 0)) 1).asOperand refState).1
      = Variant.ofFloat (some (Dec.mk 9 0)) Error.Success ∧
    (LongReal.swapDiv refKernel 10 (LongReal.mk (some (Dec.mk 3 0)) 1)
      (LongReal.mk (some (Dec.mk 6 0)) 1).asOperand refState).1
      ≠ (LongReal.div refKernel 10 (LongReal.mk (some (Dec.mk 6 0)) 1)
      (LongReal.mk (some (Dec.mk 3 0)) 1).asOperand refState).1 := by
  refine ⟨fun F σ K lp a b s => ?_, by decide, by decide, by decide⟩
  simp [LongReal.swapSub, LongReal.sub, LongReal.swapMod, LongReal.mod, LongReal.swapIdiv,
    LongReal.idiv, LongReal.swapDiv, LongReal.div, LongReal.call2, LongReal.call2ND,
    LongReal.asOperand, LongReal.type]

/-- C19: with `o` the result of `float_out` on the working copy and `e` its
exponent.  When `o` reports `Success`: in scientific and engineering mode, if
`exp2str` succeeds too, the record has status `Success`, scale sign `Plus` iff
`e > 0`, `Minus` iff `e < 0`, `None` iff `e = 0`, and as scale the digits
`exp2str` renders for `e` in `scalebase`; in fixed-point and two's-complement
mode the record has status `Success`, scale sign `None` and an empty scale.
When `o` reports another status, the record carries that status, and its scale
is empty with sign `None`. -/
theorem convert_scale_sign_and_status {F σ : Type} (K : Kernel F σ) (lp : Int)
    (self : LongReal F) (prec : Int) (mode : FmtMode) (base scalebase : Int) (s : σ) :
    let cp := K.float_copy (K.float_create s).2 self.val (lp + 5)
    let o := K.float_out cp.2.2 cp.2.1 prec base scalebase (_cvtMode K mode)
    let e := o.2.1.exp
    let r := (LongReal.convert K lp self prec mode base scalebase s).1
    (o.1 = Error.Success → (mode = FmtMode.Scientific ∨ mode = FmtMode.Engineering) →
      (K.exp2str e scalebase).1 = Error.Success →
      r.error = Error.Success ∧
      (r.signScale = Sign.Plus ↔ e > 0) ∧
      (r.signScale = Sign.Minus ↔ e < 0) ∧
      (r.signScale = Sign.None ↔ e = 0) ∧
      r.scale = (K.exp2str e scalebase).2 ∧
      r.baseScale = scalebase) ∧
    (o.1 = Error.Success → (mode = FmtMode.FixPoint ∨ mode = FmtMode.Complement2) →
      r.error = Error.Success ∧ r.signScale = Sign.None ∧ r.scale = "") ∧
    (o.1 ≠ Error.Success →
      r.error = o.1 ∧ r.signScale = Sign.None ∧ r.scale = "") := by
  intro cp o e r
  obtain ⟨err, tok, st, hoo⟩ : ∃ err tok st,
      K.float_out (K.float_copy (K.float_create s).2 self.val (lp + 5)).2.2
        (K.float_copy (K.float_create s).2 self.val (lp + 5)).2.1 prec base scalebase
        (_cvtMode K mode) = (err, tok, st) := ⟨_, _, _, rfl⟩
  simp only [r, e, o, cp, LongReal.convert, LongReal.evalPrec, hoo]
  clear hoo r e o cp
  refine ⟨?_, ?_, ?_⟩
  · rintro ho (hm | hm) hx
    all_goals
      subst hm
      subst ho
      simp only [hx, if_true]
      refine ⟨trivial, ?_, ?_, ?_, trivial, trivial⟩
      all_goals
        by_cases h1 : tok.exp > 0
        · have h2 : ¬ tok.exp < 0 := by omega
          have h3 : ¬ tok.exp = 0 := by omega
          simp [h1, h2, h3]
        · by_cases h2 : tok.exp < 0
          · have h3 : ¬ tok.exp = 0 := by omega
            simp [h1, h2, h3]
          · have h3 : tok.exp = 0 := by omega
            simp [h1, h2, h3]
  · rintro ho (hm | hm)
    all_goals
      subst hm
      subst ho
      simp
  · intro ho
    have ho2 : ¬ err = Error.Success := ho
    simp [ho2]

/-- Witness of C19 on the reference kernel: -0.015 in scientific mode has scale
sign `Minus` and scale "2"; 1.5 in fixed-point mode has scale sign `None` and an
empty scale; NaN makes `float_out` fail and the record carries that status. -/
theorem convert_scale_sign_and_status_witness :
    (LongReal.convert refKernel 10 (LongReal.mk (some (Dec.mk (-15) 3)) 1) 10
      FmtMode.Scientific 10 10 refState).1.signScale = Sign.Minus ∧
    (LongReal.convert refKernel 10 (LongReal.mk (some (Dec.mk (-15) 3)) 1) 10
      FmtMode.Scientific 10 10 refState).1.scale = "2" ∧
    (LongReal.convert refKernel 10 (LongReal.mk (some (Dec.mk 15 1)) 1) 10
      FmtMode.FixPoint 10 10 refState).1.signScale = Sign.None ∧
    (LongReal.convert refKernel 10 (LongReal.mk (some (Dec.mk 15 1)) 1) 10
      FmtMode.FixPoint 10 10 refState).1.scale = "" ∧
    (LongReal.convert refKernel 10 (LongReal.mk none 1) 10
      FmtMode.Scientific 10 10 refState).1.error = Ref.NoOperand :=
  have hs := (convert_scale_sign_and_status refKernel 10 (LongReal.mk (some (Dec.mk (-15) 3)) 1)
    10 FmtMode.Scientific 10 10 refState).1 (by decide) (Or.inl rfl) (by decide)
  have hf := (convert_scale_sign_and_status refKernel 10 (LongReal.mk (some (Dec.mk 15 1)) 1)
    10 FmtMode.FixPoint 10 10 refState).2.1 (by decide) (Or.inl rfl)
  have hn := (convert_scale_sign_and_status refKernel 10 (LongReal.mk none 1)
    10 FmtMode.Scientific 10 10 refState).2.2 (by decide)
  ⟨hs.2.2.1.2 (by decide), hs.2.2.2.2.1.trans (by decide), hf.2.1, hf.2.2,
   hn.1.trans (by decide)⟩

/-- One call `precision(n)` with `n ≥ 0` puts `longrealPrec` into
`[1, DECPRECISION]`. -/
theorem precision_range_of_nonneg {F σ : Type} (K : Kernel F σ) (hD : 0 < K.DECPRECISION)
    (old n : Int) (hn : 0 ≤ n) :
    1 ≤ (LongReal.precision K old n).2 ∧ (LongReal.precision K old n).2 ≤ K.DECPRECISION := by
  simp only [LongReal.precision]
  by_cases h : n = 0 ∨ n > K.DECPRECISION
  · simp only [h, if_true, gt_iff_lt, hD]
    omega
  · have hpos : n > 0 := by omega
    simp only [h, if_false, hpos, if_true]
    omega

/-- One call `precision(n)` keeps `longrealPrec` in `[lo, DECPRECISION]` for
`lo ≤ 1`. -/
theorem precision_keeps_range {F σ : Type} (K : Kernel F σ) (hD : 0 < K.DECPRECISION)
    (lo old n : Int) (hlo : lo ≤ 1) (h1 : lo ≤ old) (h2 : old ≤ K.DECPRECISION) :
    lo ≤ (LongReal.precision K old n).2 ∧ (LongReal.precision K old n).2 ≤ K.DECPRECISION := by
  by_cases hn : 0 ≤ n
  · have h := precision_range_of_nonneg K hD old n hn
    omega
  · have hneg : n < 0 := by omega
    have h0 : n ≠ 0 := by omega
    simp only [LongReal.precision]
    by_cases hg : n > K.DECPRECISION
    · omega
    · have hnp : ¬ n > 0 := by omega
      simp only [h0, hg, or_self, if_false, hnp]
      omega

/-- Every sequence of calls keeps `longrealPrec` in `[lo, DECPRECISION]` for
`lo ≤ 1`. -/
theorem precisionCalls_keeps_range {F σ : Type} (K : Kernel F σ) (hD : 0 < K.DECPRECISION)
    (lo : Int) (hlo : lo ≤ 1) (ns : List Int) :
    ∀ old : Int, lo ≤ old → old ≤ K.DECPRECISION →
      lo ≤ LongReal.precisionCalls K old ns ∧ LongReal.precisionCalls K old ns ≤ K.DECPRECISION := by
  induction ns with
  | nil =>
    intro old h1 h2
    exact ⟨h1, h2⟩
  | cons n rest ih =>
    intro old h1 h2
    have hstep := precision_keeps_range K hD lo old n hlo h1 h2
    exact ih (LongReal.precision K old n).2 hstep.1 hstep.2

/-- C20: with a positive `DECPRECISION`, `precision(n)` with `n ≥ 0` leaves
`longrealPrec` in `[1, DECPRECISION]`; if `longrealPrec` is in that range, it
stays there after `precision(n)` for every `n`; after `initClass()` with a
non-negative `precDefault` and any further calls of `precision`, `longrealPrec`
is in `[1, DECPRECISION]` and `0 < workPrec() < evalPrec() ≤ DECPRECISION + 5`;
and the last chain holds from the zero-initialised static for every
`precDefault`. -/
theorem precision_range_invariant {F σ : Type} (K : Kernel F σ) (hD : 0 < K.DECPRECISION) :
    (∀ old n : Int, 0 ≤ n →
      1 ≤ (LongReal.precision K old n).2 ∧ (LongReal.precision K old n).2 ≤ K.DECPRECISION) ∧
    (∀ old n : Int, 1 ≤ old → old ≤ K.DECPRECISION →
      1 ≤ (LongReal.precision K old n).2 ∧ (LongReal.precision K old n).2 ≤ K.DECPRECISION) ∧
    (∀ (precDefault lp0 : Int) (s : σ) (ns : List Int), 0 ≤ precDefault →
      1 ≤ LongReal.precisionCalls K (LongReal.initClass K precDefault lp0 s).1 ns ∧
      LongReal.precisionCalls K (LongReal.initClass K precDefault lp0 s).1 ns ≤ K.DECPRECISION ∧
      0 < LongReal.workPrec (LongReal.precisionCalls K (LongReal.initClass K precDefault lp0 s).1 ns) ∧
      LongReal.workPrec (LongReal.precisionCalls K (LongReal.initClass K precDefault lp0 s).1 ns)
        < LongReal.evalPrec (LongReal.precisionCalls K (LongReal.initClass K precDefault lp0 s).1 ns) ∧
      LongReal.evalPrec (LongReal.precisionCalls K (LongReal.initClass K precDefault lp0 s).1 ns)
        ≤ K.DECPRECISION + 5) ∧
    (∀ (precDefault : Int) (s : σ) (ns : List Int),
      0 < LongReal.workPrec (LongReal.precisionCalls K (LongReal.initClass K precDefault 0 s).1 ns) ∧
      LongReal.workPrec (LongReal.precisionCalls K (LongReal.initClass K precDefault 0 s).1 ns)
        < LongReal.evalPrec (LongReal.precisionCalls K (LongReal.initClass K precDefault 0 s).1 ns) ∧
      LongReal.evalPrec (LongReal.precisionCalls K (LongReal.initClass K precDefault 0 s).1 ns)
        ≤ K.DECPRECISION + 5) := by
  refine ⟨fun old n hn => precision_range_of_nonneg K hD old n hn,
    fun old n h1 h2 => precision_keeps_range K hD 1 old n (le_refl 1) h1 h2, ?_, ?_⟩
  · intro precDefault lp0 s ns hp
    have hi := precision_range_of_nonneg K hD lp0 precDefault hp
    have hr := precisionCalls_keeps_range K hD 1 (le_refl 1) ns
      (LongReal.initClass K precDefault lp0 s).1 hi.1 hi.2
    simp only [LongReal.workPrec, LongReal.evalPrec]
    omega
  · intro precDefault s ns
    have hi := precision_keeps_range K hD 0 0 precDefault (by decide) (le_refl 0) (le_of_lt hD)
    have hr := precisionCalls_keeps_range K hD 0 (by decide) ns
      (LongReal.initClass K precDefault 0 s).1 hi.1 hi.2
    simp only [LongReal.workPrec, LongReal.evalPrec]
    omega

/-- Witness of C20 on the reference kernel (`DECPRECISION = 78`): after
`initClass()` with `precDefault = 0` and the calls `precision(10)`,
`precision(-1)`, `precision(500)`, the setting is 78, `workPrec()` is 81 and
`evalPrec()` is 83. -/
theorem precision_range_invariant_witness :
    (0 : Int) < refKernel.DECPRECISION ∧
    LongReal.precisionCalls refKernel (LongReal.initClass refKernel 0 0 refState).1
      [10, -1, 500] = 78 ∧
    (1 : Int) ≤ LongReal.precisionCalls refKernel (LongReal.initClass refKernel 0 0 refState).1
      [10, -1, 500] ∧
    (0 : Int) < LongReal.workPrec (LongReal.precisionCalls refKernel
      (LongReal.initClass refKernel 0 0 refState).1 [10, -1, 500]) ∧
    LongReal.evalPrec (LongReal.precisionCalls refKernel
      (LongReal.initClass refKernel 0 0 refState).1 [10, -1, 500]) ≤ refKernel.DECPRECISION + 5 :=
  have h := (precision_range_invariant refKernel (by decide)).2.2.1 0 0 refState [10, -1, 500]
    (by decide)
  ⟨by decide, by decide, h.1, h.2.2.1, h.2.2.2.2⟩

end SpeedCrunch
